import Mathlib

/-!
Shallow embedding of the `django-openpay` synchronization layer
(`src/django_openpay/models.py` and `src/django_openpay/admin.py`).

Local Django model instances become Lean structures; the remote Openpay
SDK becomes an oracle (`OpenpayAPI`) of response functions; every operation
returns the updated local instance together with the list of remote calls
it issued, or the exception it raised.  Python exceptions are values of
`OpErr`; `raise` becomes returning `Except.error`.
-/

/-- Exception kinds raised by the code.  `ObjectDoesNotExist`, `NoCustomer`,
`NoCard` model the classes of the package's `exceptions` module
(`OpenpayObjectDoesNotExist`, `OpenpayNoCustomer`, `OpenpayNoCard`);
`NotImplementedError` and `AttributeError` are the Python builtins;
`DoesNotExist` is Django's missing-row error from `objects.get`;
`InvalidOperation` is raised by `decimal.Decimal` on an unparseable string. -/
inductive OpErr where
  | ObjectDoesNotExist
  | NoCustomer
  | NoCard
  | NotImplementedError
  | AttributeError
  | DoesNotExist
  | InvalidOperation
deriving DecidableEq, Repr

/-- A parsed datetime (result of `django.utils.dateparse.parse_datetime`);
parsing is modeled as an injective tagging of the source string. -/
structure Datetime where
  raw : String
deriving DecidableEq, Repr

/-- Model of `parse_datetime` applied to a remote timestamp string. -/
def parse_datetime (s : String) : Datetime := ⟨s⟩

/-- A parsed date (result of `parse_date`); same tagging model. -/
structure PyDate where
  raw : String
deriving DecidableEq, Repr

/-- Model of `parse_date`. -/
def parse_date (s : String) : PyDate := ⟨s⟩

/-- Model of Python `date.isoformat()`. -/
def PyDate.isoformat (d : PyDate) : String := d.raw

/-- Model of Python's `decimal.Decimal`: a sign, an integer coefficient and
the number of digits after the decimal point (`places = -exponent`; the
Django fields use `decimal_places=2`, so `places ≤ 2` throughout). -/
structure PyDecimal where
  neg : Bool
  coeff : Nat
  places : Nat
deriving DecidableEq, Repr

/-- The decimal digit characters. -/
def digitChar : Nat → Char
  | 0 => '0' | 1 => '1' | 2 => '2' | 3 => '3' | 4 => '4'
  | 5 => '5' | 6 => '6' | 7 => '7' | 8 => '8' | 9 => '9'
  | _ => '*'

/-- Is `c` one of `'0'..'9'`? -/
def isDigitChar (c : Char) : Bool := '0' ≤ c && c ≤ '9'

/-- Numeric value of a digit character. -/
def charDigit (c : Char) : Nat := c.toNat - 48

/-- Little-endian base-10 digits of `n`, with explicit fuel so that the
function is structurally recursive and kernel-reducible. -/
def toDigitsRev : Nat → Nat → List Nat
  | 0, _ => []
  | fuel + 1, n => if n = 0 then [] else n % 10 :: toDigitsRev fuel (n / 10)

/-- Little-endian base-10 digits of `n` (empty for `0`). -/
def natDigitsRev (n : Nat) : List Nat := toDigitsRev n n

/-- The characters of the usual decimal notation of `n`. -/
def natChars (n : Nat) : List Char :=
  if n = 0 then ['0'] else (natDigitsRev n).reverse.map digitChar

/-- The fractional digit block of a decimal string: exactly `k` characters
representing `m` (for `m < 10 ^ k`), left-padded with zeros. -/
def fracChars (k m : Nat) : List Char :=
  List.replicate (k - ((natDigitsRev m).reverse.map digitChar).length) '0' ++
    (natDigitsRev m).reverse.map digitChar

/-- The characters of `str(d)` for a Python `Decimal` with a nonpositive
exponent in the plain-notation range (always the case for amounts with at
most two decimal places). -/
def decimalChars (d : PyDecimal) : List Char :=
  (if d.neg then ['-'] else []) ++
    (if d.places = 0 then natChars d.coeff
     else natChars (d.coeff / 10 ^ d.places) ++
       '.' :: fracChars d.places (d.coeff % 10 ^ d.places))

/-- Model of Python `str(d)` for the decimals handled here. -/
def decimalToString (d : PyDecimal) : String := ⟨decimalChars d⟩

/-- Splits an optional leading `'-'` sign. -/
def splitSign (cs : List Char) : Bool × List Char :=
  match cs with
  | [] => (false, [])
  | c :: r => if c = '-' then (true, r) else (false, c :: r)

/-- Consumes the longest prefix of digit characters, returning their values
and the rest of the input. -/
def spanDigits : List Char → List Nat × List Char
  | [] => ([], [])
  | c :: cs =>
    if isDigitChar c then
      ((charDigit c) :: (spanDigits cs).1, (spanDigits cs).2)
    else ([], c :: cs)

/-- Value of a big-endian digit list. -/
def digitsVal (ds : List Nat) : Nat := ds.foldl (fun a d => 10 * a + d) 0

/-- Parses `⟨sign⟩digits[.digits]` after the sign has been split off. -/
def parseAfterSign (neg : Bool) (cs : List Char) : Option PyDecimal :=
  if (spanDigits cs).1 = [] then none
  else
    match (spanDigits cs).2 with
    | [] => some ⟨neg, digitsVal (spanDigits cs).1, 0⟩
    | c :: r2 =>
      if c = '.' then
        if (spanDigits r2).1 = [] then none
        else if (spanDigits r2).2 = [] then
          some ⟨neg, digitsVal ((spanDigits cs).1 ++ (spanDigits r2).1),
                (spanDigits r2).1.length⟩
        else none
      else none

/-- Model of `Decimal(s)` (the constructor of Python's `decimal.Decimal`)
on plain decimal strings; `none` models the `InvalidOperation` exception. -/
def decimalFromChars (cs : List Char) : Option PyDecimal :=
  parseAfterSign (splitSign cs).1 (splitSign cs).2

/-- `Decimal(s)` on a Lean `String`. -/
def decimalFromString (s : String) : Option PyDecimal := decimalFromChars s.data

/-- Each digit below ten maps to a digit character and back. -/
theorem digit_spec : ∀ d, d < 10 → charDigit (digitChar d) = d ∧ isDigitChar (digitChar d) = true := by
  decide

/-- The input does not start with a digit character. -/
def headNotDigit : List Char → Bool
  | [] => true
  | c :: _ => !isDigitChar c

/-- `spanDigits` consumes exactly a printed digit block. -/
theorem spanDigits_map_append : ∀ (ds : List Nat) (rest : List Char),
    (∀ d ∈ ds, d < 10) → headNotDigit rest = true →
    spanDigits (ds.map digitChar ++ rest) = (ds, rest) := by
  intro ds
  induction ds with
  | nil =>
    intro rest h hrest
    cases rest with
    | nil => rfl
    | cons c cs =>
      have hc : isDigitChar c = false := by simpa [headNotDigit] using hrest
      simp [spanDigits, hc]
  | cons d t ih =>
    intro rest h hrest
    have hd : d < 10 := h d (by simp)
    have h1 := digit_spec d hd
    have ih' := ih rest (fun x hx => h x (by simp [hx])) hrest
    simp [spanDigits, h1.1, h1.2, ih']

/-- Folding digits from an accumulator shifts the accumulator. -/
theorem digitsVal_eq_foldl_shift : ∀ (l : List Nat) (a : Nat),
    l.foldl (fun x d => 10 * x + d) a = a * 10 ^ l.length + digitsVal l := by
  intro l
  induction l with
  | nil => intro a; simp [digitsVal]
  | cons d t ih =>
    intro a
    simp only [List.foldl_cons]
    rw [ih (10 * a + d)]
    have hv : digitsVal (d :: t) = d * 10 ^ t.length + digitsVal t := by
      simp only [digitsVal, List.foldl_cons]
      simpa using ih (10 * 0 + d)
    rw [hv, List.length_cons]
    ring

/-- Value of a concatenation of digit blocks. -/
theorem digitsVal_append (l₁ l₂ : List Nat) :
    digitsVal (l₁ ++ l₂) = digitsVal l₁ * 10 ^ l₂.length + digitsVal l₂ := by
  simp only [digitsVal, List.foldl_append]
  rw [digitsVal_eq_foldl_shift]
  rfl

/-- Leading zeros contribute nothing. -/
theorem digitsVal_replicate_zero (z : Nat) : digitsVal (List.replicate z 0) = 0 := by
  induction z with
  | zero => rfl
  | succ n ih =>
    simp only [List.replicate_succ, digitsVal, List.foldl_cons]
    simpa [digitsVal] using ih

/-- The printed digits of `n` evaluate back to `n`. -/
theorem toDigitsRev_val : ∀ (fuel n : Nat), n ≤ fuel →
    digitsVal (toDigitsRev fuel n).reverse = n := by
  intro fuel
  induction fuel with
  | zero =>
    intro n h
    have : n = 0 := by omega
    subst this
    rfl
  | succ f ih =>
    intro n h
    by_cases h0 : n = 0
    · subst h0; rfl
    · have hlt : n / 10 < n := Nat.div_lt_self (Nat.pos_of_ne_zero h0) (by norm_num)
      have hle : n / 10 ≤ f := by omega
      simp only [toDigitsRev, if_neg h0]
      rw [List.reverse_cons, digitsVal_append, ih (n / 10) hle]
      simp [digitsVal]
      omega

/-- Every produced digit is below ten. -/
theorem toDigitsRev_lt : ∀ (fuel n : Nat), ∀ d ∈ toDigitsRev fuel n, d < 10 := by
  intro fuel
  induction fuel with
  | zero => intro n d hd; simp [toDigitsRev] at hd
  | succ f ih =>
    intro n d hd
    by_cases h0 : n = 0
    · subst h0; simp [toDigitsRev] at hd
    · simp only [toDigitsRev, if_neg h0, List.mem_cons] at hd
      cases hd with
      | inl h1 => subst h1; exact Nat.mod_lt _ (by norm_num)
      | inr h2 => exact ih _ d h2

/-- A nonzero number prints at least one digit. -/
theorem toDigitsRev_ne_nil (fuel n : Nat) (h0 : n ≠ 0) (h : n ≤ fuel) :
    toDigitsRev fuel n ≠ [] := by
  cases fuel with
  | zero => omega
  | succ f => simp [toDigitsRev, h0]

/-- A number below `10 ^ k` prints at most `k` digits. -/
theorem toDigitsRev_length : ∀ (fuel n k : Nat), n < 10 ^ k →
    (toDigitsRev fuel n).length ≤ k := by
  intro fuel
  induction fuel with
  | zero => intro n k _; simp [toDigitsRev]
  | succ f ih =>
    intro n k h
    by_cases h0 : n = 0
    · subst h0; simp [toDigitsRev]
    · cases k with
      | zero => simp at h; omega
      | succ k' =>
        simp only [toDigitsRev, if_neg h0, List.length_cons]
        have hdiv : n / 10 < 10 ^ k' := by
          rw [Nat.div_lt_iff_lt_mul (by norm_num : (0 : Nat) < 10)]
          calc n < 10 ^ (k' + 1) := h
            _ = 10 ^ k' * 10 := by ring
        have := ih (n / 10) k' hdiv
        omega

/-- `natChars` is a digit block evaluating to `n`. -/
theorem natChars_spec (n : Nat) : ∃ ds : List Nat,
    natChars n = ds.map digitChar ∧ (∀ d ∈ ds, d < 10) ∧ ds ≠ [] ∧ digitsVal ds = n := by
  by_cases h0 : n = 0
  · subst h0
    exact ⟨[0], by simp [natChars, digitChar], by simp, by simp, rfl⟩
  · refine ⟨(natDigitsRev n).reverse, by simp [natChars, h0], ?_, ?_, ?_⟩
    · intro d hd
      exact toDigitsRev_lt n n d (List.mem_reverse.mp hd)
    · intro hcon
      rw [List.reverse_eq_nil_iff] at hcon
      exact toDigitsRev_ne_nil n n h0 le_rfl hcon
    · exact toDigitsRev_val n n le_rfl

/-- `fracChars` is a digit block of length exactly `k` evaluating to `m`. -/
theorem fracChars_spec (k m : Nat) (h : m < 10 ^ k) : ∃ ds : List Nat,
    fracChars k m = ds.map digitChar ∧ (∀ d ∈ ds, d < 10) ∧ ds.length = k ∧
    digitsVal ds = m := by
  refine ⟨List.replicate (k - (natDigitsRev m).reverse.length) 0 ++ (natDigitsRev m).reverse,
    ?_, ?_, ?_, ?_⟩
  · simp [fracChars, List.map_append, List.map_replicate, digitChar]
  · intro d hd
    rcases List.mem_append.mp hd with h1 | h2
    · have := List.eq_of_mem_replicate h1
      subst this
      norm_num
    · exact toDigitsRev_lt m m d (List.mem_reverse.mp h2)
  · have hlen : (toDigitsRev m m).length ≤ k := toDigitsRev_length m m k h
    simp only [List.length_append, List.length_replicate, List.length_reverse, natDigitsRev]
    omega
  · rw [digitsVal_append, digitsVal_replicate_zero]
    simpa [natDigitsRev] using toDigitsRev_val m m le_rfl

/-- Parsing a signless digit string yields an integral decimal. -/
theorem parse_plain (neg : Bool) (ds : List Nat) (hlt : ∀ d ∈ ds, d < 10) (hne : ds ≠ []) :
    parseAfterSign neg (ds.map digitChar) = some ⟨neg, digitsVal ds, 0⟩ := by
  have hsd : spanDigits (ds.map digitChar) = (ds, []) := by
    simpa using spanDigits_map_append ds [] hlt rfl
  simp [parseAfterSign, hsd, hne]

/-- Parsing an `⟨int⟩.⟨frac⟩` digit string yields the combined coefficient. -/
theorem parse_frac (neg : Bool) (dsI dsF : List Nat)
    (hltI : ∀ d ∈ dsI, d < 10) (hltF : ∀ d ∈ dsF, d < 10)
    (hneI : dsI ≠ []) (hneF : dsF ≠ []) :
    parseAfterSign neg (dsI.map digitChar ++ '.' :: dsF.map digitChar) =
      some ⟨neg, digitsVal (dsI ++ dsF), dsF.length⟩ := by
  have hsd1 : spanDigits (dsI.map digitChar ++ '.' :: dsF.map digitChar) =
      (dsI, '.' :: dsF.map digitChar) := by
    refine spanDigits_map_append dsI _ hltI ?_
    simp [headNotDigit]
    decide
  have hsd2 : spanDigits (dsF.map digitChar) = (dsF, []) := by
    simpa using spanDigits_map_append dsF [] hltF rfl
  simp [parseAfterSign, hsd1, hsd2, hneI, hneF]

/-- The sign splitter undoes the printed sign. -/
theorem splitSign_cons (neg : Bool) (c : Char) (r : List Char) (hc : c ≠ '-') :
    splitSign ((if neg then ['-'] else []) ++ c :: r) = (neg, c :: r) := by
  cases neg
  · simp [splitSign, hc]
  · simp [splitSign]

/-- Round trip of the `decimal.Decimal` model: parsing `str(d)` recovers `d`
exactly.  This is the no-drift property behind the Plan amount claim. -/
theorem decimal_roundtrip (d : PyDecimal) :
    decimalFromString (decimalToString d) = some d := by
  obtain ⟨neg, coeff, places⟩ := d
  show decimalFromChars (decimalChars ⟨neg, coeff, places⟩) = _
  by_cases hp : places = 0
  · subst hp
    obtain ⟨ds, hmap, hlt, hne, hval⟩ := natChars_spec coeff
    have hch : decimalChars ⟨neg, coeff, 0⟩ = (if neg then ['-'] else []) ++ ds.map digitChar := by
      simp [decimalChars, hmap]
    obtain ⟨c, r, hcr, hcd⟩ : ∃ c r, ds.map digitChar = c :: r ∧ isDigitChar c = true := by
      cases ds with
      | nil => exact absurd rfl hne
      | cons d0 t =>
        exact ⟨digitChar d0, t.map digitChar, rfl, (digit_spec d0 (hlt d0 (by simp))).2⟩
    have hcne : c ≠ '-' := by
      intro hcon
      rw [hcon] at hcd
      exact absurd hcd (by decide)
    rw [hch, decimalFromChars, hcr, splitSign_cons neg c r hcne, ← hcr]
    simp [parse_plain neg ds hlt hne, hval]
  · obtain ⟨dsI, hmapI, hltI, hneI, hvalI⟩ := natChars_spec (coeff / 10 ^ places)
    have hmlt : coeff % 10 ^ places < 10 ^ places :=
      Nat.mod_lt _ (pow_pos (by norm_num) places)
    obtain ⟨dsF, hmapF, hltF, hlenF, hvalF⟩ := fracChars_spec places (coeff % 10 ^ places) hmlt
    have hneF : dsF ≠ [] := by
      intro hcon
      rw [hcon] at hlenF
      exact hp (by simpa using hlenF.symm)
    have hch : decimalChars ⟨neg, coeff, places⟩ =
        (if neg then ['-'] else []) ++ (dsI.map digitChar ++ '.' :: dsF.map digitChar) := by
      simp [decimalChars, hp, hmapI, hmapF]
    obtain ⟨c, r, hcr, hcd⟩ : ∃ c r,
        dsI.map digitChar ++ '.' :: dsF.map digitChar = c :: r ∧ isDigitChar c = true := by
      cases dsI with
      | nil => exact absurd rfl hneI
      | cons d0 t =>
        exact ⟨digitChar d0, t.map digitChar ++ '.' :: dsF.map digitChar, rfl,
          (digit_spec d0 (hltI d0 (by simp))).2⟩
    have hcne : c ≠ '-' := by
      intro hcon
      rw [hcon] at hcd
      exact absurd hcd (by decide)
    rw [hch, decimalFromChars, hcr, splitSign_cons neg c r hcne, ← hcr]
    rw [parse_frac neg dsI dsF hltI hltF hneI hneF]
    rw [digitsVal_append, hvalI, hvalF, hlenF]
    simp [Nat.div_add_mod' coeff (10 ^ places)]

/-- The dictionary produced by `Address.json_dict`: every concrete field of
the `Address` row except `id`, `creation_date` and `openpay_id`. -/
structure AddressJson where
  city : String
  state : String
  line1 : String
  line2 : String
  line3 : String
  postal_code : Int
  country_code : String
deriving DecidableEq, Repr

/-- Keyword arguments of `openpay.Customer.create` as built by
`Customer.push`. -/
structure CustomerReq where
  name : String
  last_name : String
  email : String
  phone_number : String
  address : AddressJson
deriving DecidableEq, Repr

/-- Keyword arguments of `openpay.Plan.create` as built by `Plan.push`
(the amount is transmitted as a string, `str(self.amount)`). -/
structure PlanReq where
  name : String
  amount : String
  status_after_retry : String
  retry_times : Int
  repeat_unit : String
  trial_days : Int
  repeat_every : Int
deriving DecidableEq, Repr

/-- Keyword arguments of `customer.subscriptions.create` as built by
`Subscription.push`. -/
structure SubReq where
  plan_id : String
  trial_end_date : Option String
  card_id : String
deriving DecidableEq, Repr

/-- Keyword arguments of `customer.charges.create` as built by
`Charge.push`. -/
structure ChargeReq where
  source_id : String
  method : String
  amount : String
  currency : String
  description : String
  device_session_id : String
  capture : Bool
deriving DecidableEq, Repr

/-- A remote customer object as returned by the Openpay SDK. -/
structure OpCustomer where
  id : String
  name : String
  last_name : String
  email : String
  phone_number : String
  address : AddressJson
  creation_date : String
deriving DecidableEq, Repr

/-- A remote card object as returned by the Openpay SDK. -/
structure OpCard where
  id : String
  type : String
  holder_name : String
  card_number : String
  expiration_month : String
  expiration_year : String
  creation_date : String
deriving DecidableEq, Repr

/-- A remote plan object as returned by the Openpay SDK (the amount comes
back as a decimal string). -/
structure OpPlan where
  id : String
  name : String
  amount : String
  status_after_retry : String
  retry_times : Int
  repeat_unit : String
  trial_days : Int
  repeat_every : Int
  creation_date : String
deriving DecidableEq, Repr

/-- A remote subscription object as returned by the Openpay SDK. -/
structure OpSubscription where
  id : String
  trial_end_date : String
  cancel_at_period_end : Bool
  card : Option OpCard
  card_id : String
  creation_date : String
deriving DecidableEq, Repr

/-- A remote charge object as returned by the Openpay SDK. -/
structure OpCharge where
  id : String
  description : String
  amount : String
  method : String
  currency : String
  creation_date : String
deriving DecidableEq, Repr

/-- One remote HTTP interaction issued through the SDK.  `customerRetrieve`
is also emitted by the child-resource paths, which go through
`openpay.Customer.retrieve(...)` before the scoped call. -/
inductive RemoteCall where
  | customerCreate (req : CustomerReq)
  | customerRetrieve (id : String)
  | customerSave (obj : OpCustomer)
  | customerDelete (id : String)
  | cardCreate (customerId tokenId deviceId : String)
  | cardRetrieve (customerId cardId : String)
  | cardDelete (id : String)
  | planCreate (req : PlanReq)
  | planRetrieve (id : String)
  | planSave (obj : OpPlan)
  | planDelete (id : String)
  | subscriptionCreate (customerId : String) (req : SubReq)
  | subscriptionRetrieve (customerId subscriptionId : String)
  | subscriptionSave (obj : OpSubscription)
  | subscriptionDelete (id : String)
  | chargeCreate (customerId : String) (req : ChargeReq)
  | chargeRetrieve (customerId chargeId : String)
  | chargeCapture (id : String)
  | chargeRefund (id : String)
  | chargeDelete (id : String)
deriving DecidableEq, Repr

/-- Response oracle for the remote service: what each SDK call returns.
The real service is nondeterministic from the client's point of view, so
the claims are quantified over this oracle. -/
structure OpenpayAPI where
  customerCreate : CustomerReq → OpCustomer
  customerRetrieve : String → OpCustomer
  cardCreate : String → String → String → OpCard
  cardRetrieve : String → String → OpCard
  planCreate : PlanReq → OpPlan
  planRetrieve : String → OpPlan
  subscriptionCreate : String → SubReq → OpSubscription
  subscriptionRetrieve : String → String → OpSubscription
  chargeCreate : String → ChargeReq → OpCharge
  chargeRetrieve : String → String → OpCharge
  device_id : String

/-- Result of one Python-level operation: either the updated local record
or the raised exception, together with the remote calls issued (in order)
before returning or raising. -/
def Res (α : Type) : Type := Except OpErr α × List RemoteCall

/-- Return without remote traffic. -/
def Res.ok (a : α) : Res α := (Except.ok a, [])

/-- Raise without remote traffic. -/
def Res.err (e : OpErr) : Res α := (Except.error e, [])

/-- Return after issuing the given remote calls. -/
def Res.emit (cs : List RemoteCall) (a : α) : Res α := (Except.ok a, cs)

/-- Sequencing: an exception aborts, remote calls accumulate. -/
def Res.bind (r : Res α) (k : α → Res β) : Res β :=
  match r with
  | (Except.error e, t) => (Except.error e, t)
  | (Except.ok a, t) =>
    match k a with
    | (r2, t2) => (r2, t ++ t2)

/-- Python attribute access on an optionally-present attribute (the code's
`hasattr`-guarded `self._openpay`, nullable relations, nullable dates);
a missing attribute raises `AttributeError`. -/
def pyattr (o : Option α) (k : α → Res β) : Res β :=
  match o with
  | some a => k a
  | none => Res.err OpErr.AttributeError

/-- Modelled from the spec: the card-payment method constant
(`hardcode.charge_method_card`) of the package's `hardcode` module, which
is not part of the sources at hand; the spec calls it the card-payment
method and `Charge.method` defaults to it. -/
def charge_method_card : String := "card"

/-- The local `Address` row. -/
structure Address where
  city : String
  state : String
  line1 : String
  line2 : String
  line3 : String
  postal_code : Int
  country_code : String
deriving DecidableEq, Repr

/-- `Address.json_dict`: all concrete fields except `id`, `creation_date`
and `openpay_id`. -/
def Address.json_dict (a : Address) : AddressJson :=
  ⟨a.city, a.state, a.line1, a.line2, a.line3, a.postal_code, a.country_code⟩

/-- The local `Customer` row.  `openpay_id` is blank (`""`) until the first
successful push; `_openpay` is the lazily populated SDK handle. -/
structure Customer where
  openpay_id : String
  first_name : String
  last_name : String
  email : String
  phone_number : String
  address : Address
  creation_date : Option Datetime
  _openpay : Option OpCustomer
deriving DecidableEq, Repr

/-- The keyword arguments `Customer.push` passes to
`openpay.Customer.create`. -/
def customerCreateReq (c : Customer) : CustomerReq :=
  { name := c.first_name
    last_name := c.last_name
    email := c.email
    phone_number := c.phone_number
    address := c.address.json_dict }

/-- `Customer.retrieve`: fetch the remote customer by `openpay_id`, raising
`OpenpayObjectDoesNotExist` when the record was never pushed. -/
def Customer.retrieve (api : OpenpayAPI) (c : Customer) : Res Customer :=
  if c.openpay_id ≠ "" then
    Res.emit [RemoteCall.customerRetrieve c.openpay_id]
      { c with _openpay := some (api.customerRetrieve c.openpay_id) }
  else
    Res.err OpErr.ObjectDoesNotExist

/-- `Customer.pull`: retrieve, then overwrite the local mutable fields and
the creation date from the remote object. -/
def Customer.pull (api : OpenpayAPI) (c : Customer) : Res Customer :=
  Res.bind (Customer.retrieve api c) fun c1 =>
  pyattr c1._openpay fun op =>
  Res.ok { c1 with
    first_name := op.name
    last_name := op.last_name
    email := op.email
    phone_number := op.phone_number
    creation_date := some (parse_datetime op.creation_date) }

/-- `Customer.push`: update the mutable remote fields and save when a
remote identifier exists; otherwise create the remote customer, store the
returned identifier and pull. -/
def Customer.push (api : OpenpayAPI) (c : Customer) : Res Customer :=
  if c.openpay_id ≠ "" then
    Res.bind (if c._openpay.isNone then Customer.retrieve api c else Res.ok c) fun c1 =>
    pyattr c1._openpay fun op =>
    let op1 : OpCustomer :=
      { op with
        name := c1.first_name
        last_name := c1.last_name
        email := c1.email
        phone_number := c1.phone_number
        address := c1.address.json_dict }
    Res.emit [RemoteCall.customerSave op1] { c1 with _openpay := some op1 }
  else
    Res.bind (Res.emit [RemoteCall.customerCreate (customerCreateReq c)]
        { c with
          _openpay := some (api.customerCreate (customerCreateReq c))
          openpay_id := (api.customerCreate (customerCreateReq c)).id }) fun c1 =>
    Customer.pull api c1

/-- `Customer.remove`: silently do nothing when there is no remote
identifier; otherwise retrieve if not cached and delete remotely. -/
def Customer.remove (api : OpenpayAPI) (c : Customer) : Res Customer :=
  if c.openpay_id ≠ "" then
    Res.bind (if c._openpay.isNone then Customer.retrieve api c else Res.ok c) fun c1 =>
    pyattr c1._openpay fun op =>
    Res.emit [RemoteCall.customerDelete op.id] c1
  else
    Res.ok c

/-- Python string slicing `s[-n:]`: the last `n` characters (the whole
string when it is shorter). -/
def pyLastChars (n : Nat) (s : String) : String := ⟨(s.data.reverse.take n).reverse⟩

/-- The local `Card` row.  The stored `number` is at most the 4-character
suffix of the remote card number (`max_length=5` on the column). -/
structure Card where
  openpay_id : String
  alias_ : String
  card_type : String
  holder : String
  number : String
  month : String
  year : String
  customer : Option Customer
  creation_date : Option Datetime
  _openpay : Option OpCard
deriving DecidableEq, Repr

/-- `Card.tokenized_create`: call the remote tokenized card creation, look
up the owning local customer row by its remote identifier (`objects.get`),
and build the local record from the response, truncating the card number to
its last 4 characters and the expiry fields to their last 2.  The final
`card.save()` only runs `full_clean` (the `Card` pre-save hook does not
push), so it is modeled as returning the record. -/
def Card.tokenized_create (api : OpenpayAPI) (customers : String → Option Customer)
    (customerId tokenId deviceId : String) (alias_ : String := "") : Res Card :=
  Res.bind (Res.emit [RemoteCall.cardCreate customerId tokenId deviceId] (api.cardCreate customerId tokenId deviceId)) fun card_op =>
  match customers customerId with
  | none => Res.err OpErr.DoesNotExist
  | some customer =>
    Res.ok
      { openpay_id := card_op.id
        alias_ := alias_
        card_type := card_op.type
        holder := card_op.holder_name
        number := pyLastChars 4 card_op.card_number
        month := pyLastChars 2 card_op.expiration_month
        year := pyLastChars 2 card_op.expiration_year
        creation_date := some (parse_datetime card_op.creation_date)
        customer := some customer
        _openpay := some card_op }

/-- `Card.push` raises `NotImplementedError`: cards are immutable once
tokenized. -/
def Card.push (_api : OpenpayAPI) (_c : Card) : Res Card :=
  Res.err OpErr.NotImplementedError

/-- `Card.retrieve`: raise `OpenpayNoCustomer` when the owning customer is
absent or never pushed; then fetch the remote card through the customer
scope, or raise `OpenpayObjectDoesNotExist` when the card itself was never
pushed. -/
def Card.retrieve (api : OpenpayAPI) (c : Card) : Res Card :=
  match c.customer with
  | none => Res.err OpErr.NoCustomer
  | some cust =>
    if cust.openpay_id = "" then Res.err OpErr.NoCustomer
    else if c.openpay_id ≠ "" then
      Res.emit
        [RemoteCall.customerRetrieve cust.openpay_id,
         RemoteCall.cardRetrieve cust.openpay_id c.openpay_id]
        { c with _openpay := some (api.cardRetrieve cust.openpay_id c.openpay_id) }
    else
      Res.err OpErr.ObjectDoesNotExist

/-- `Card.pull`: retrieve, then overwrite the local fields from the remote
card, truncating the number to 4 and the expiry fields to 2 characters. -/
def Card.pull (api : OpenpayAPI) (c : Card) : Res Card :=
  Res.bind (Card.retrieve api c) fun c1 =>
  pyattr c1._openpay fun op =>
  Res.ok { c1 with
    card_type := op.type
    holder := op.holder_name
    number := pyLastChars 4 op.card_number
    month := pyLastChars 2 op.expiration_month
    year := pyLastChars 2 op.expiration_year
    creation_date := some (parse_datetime op.creation_date) }

/-- `Card.remove`: silently do nothing when there is no remote identifier;
otherwise retrieve if not cached and delete remotely. -/
def Card.remove (api : OpenpayAPI) (c : Card) : Res Card :=
  if c.openpay_id ≠ "" then
    Res.bind (if c._openpay.isNone then Card.retrieve api c else Res.ok c) fun c1 =>
    pyattr c1._openpay fun op =>
    Res.emit [RemoteCall.cardDelete op.id] c1
  else
    Res.ok c

/-- The local `Plan` row. -/
structure Plan where
  openpay_id : String
  name : String
  amount : PyDecimal
  retry_times : Int
  status_after_retry : String
  trial_days : Int
  repeat_every : Int
  repeat_unit : String
  creation_date : Option Datetime
  _openpay : Option OpPlan
deriving DecidableEq, Repr

/-- The keyword arguments `Plan.push` passes to `openpay.Plan.create`; the
amount is `str(self.amount)`. -/
def planCreateReq (p : Plan) : PlanReq :=
  { name := p.name
    amount := decimalToString p.amount
    status_after_retry := p.status_after_retry
    retry_times := p.retry_times
    repeat_unit := p.repeat_unit
    trial_days := p.trial_days
    repeat_every := p.repeat_every }

/-- `Plan.retrieve`: fetch the remote plan by `openpay_id`, raising
`OpenpayObjectDoesNotExist` when the record was never pushed. -/
def Plan.retrieve (api : OpenpayAPI) (p : Plan) : Res Plan :=
  if p.openpay_id ≠ "" then
    Res.emit [RemoteCall.planRetrieve p.openpay_id]
      { p with _openpay := some (api.planRetrieve p.openpay_id) }
  else
    Res.err OpErr.ObjectDoesNotExist

/-- `Plan.pull`: retrieve, then overwrite the local fields from the remote
plan; the remote amount string is parsed back through `Decimal(...)`. -/
def Plan.pull (api : OpenpayAPI) (p : Plan) : Res Plan :=
  Res.bind (Plan.retrieve api p) fun p1 =>
  pyattr p1._openpay fun op =>
  match decimalFromString op.amount with
  | none => Res.err OpErr.InvalidOperation
  | some amt =>
    Res.ok { p1 with
      name := op.name
      amount := amt
      status_after_retry := op.status_after_retry
      retry_times := op.retry_times
      repeat_unit := op.repeat_unit
      trial_days := op.trial_days
      repeat_every := op.repeat_every
      creation_date := some (parse_datetime op.creation_date) }

/-- `Plan.push`: update name and trial days remotely and save when a remote
identifier exists; otherwise create the remote plan, store the returned
identifier and pull. -/
def Plan.push (api : OpenpayAPI) (p : Plan) : Res Plan :=
  if p.openpay_id ≠ "" then
    Res.bind (if p._openpay.isNone then Plan.retrieve api p else Res.ok p) fun p1 =>
    pyattr p1._openpay fun op =>
    let op1 : OpPlan := { op with name := p1.name, trial_days := p1.trial_days }
    Res.emit [RemoteCall.planSave op1] { p1 with _openpay := some op1 }
  else
    Res.bind (Res.emit [RemoteCall.planCreate (planCreateReq p)]
        { p with
          _openpay := some (api.planCreate (planCreateReq p))
          openpay_id := (api.planCreate (planCreateReq p)).id }) fun p1 =>
    Plan.pull api p1

/-- `Plan.remove`: silently do nothing when there is no remote identifier;
otherwise retrieve if not cached and delete remotely. -/
def Plan.remove (api : OpenpayAPI) (p : Plan) : Res Plan :=
  if p.openpay_id ≠ "" then
    Res.bind (if p._openpay.isNone then Plan.retrieve api p else Res.ok p) fun p1 =>
    pyattr p1._openpay fun op =>
    Res.emit [RemoteCall.planDelete op.id] p1
  else
    Res.ok p

/-- The local `Subscription` row. -/
structure Subscription where
  openpay_id : String
  customer : Option Customer
  card : Option Card
  plan : Option Plan
  cancel_at_period_end : Bool
  trial_end_date : Option PyDate
  creation_date : Option Datetime
  _openpay : Option OpSubscription
deriving DecidableEq, Repr

/-- The keyword arguments `Subscription.push` passes to
`customer.subscriptions.create` (the trial end date is sent as its ISO
string when present, else `None`). -/
def subscriptionCreateReq (s : Subscription) (card : Card) (plan : Plan) : SubReq :=
  { plan_id := plan.openpay_id
    trial_end_date := s.trial_end_date.map PyDate.isoformat
    card_id := card.openpay_id }

/-- `Subscription.retrieve`: raise `OpenpayNoCustomer` when the owning
customer is absent or never pushed; then fetch the remote subscription
through the customer scope, or raise `OpenpayObjectDoesNotExist` when the
subscription itself was never pushed. -/
def Subscription.retrieve (api : OpenpayAPI) (s : Subscription) : Res Subscription :=
  match s.customer with
  | none => Res.err OpErr.NoCustomer
  | some cust =>
    if cust.openpay_id = "" then Res.err OpErr.NoCustomer
    else if s.openpay_id ≠ "" then
      Res.emit
        [RemoteCall.customerRetrieve cust.openpay_id,
         RemoteCall.subscriptionRetrieve cust.openpay_id s.openpay_id]
        { s with _openpay := some (api.subscriptionRetrieve cust.openpay_id s.openpay_id) }
    else
      Res.err OpErr.ObjectDoesNotExist

/-- `Subscription.pull`: retrieve, then overwrite the trial end date, the
cancellation flag and the creation date from the remote subscription. -/
def Subscription.pull (api : OpenpayAPI) (s : Subscription) : Res Subscription :=
  Res.bind (Subscription.retrieve api s) fun s1 =>
  pyattr s1._openpay fun op =>
  Res.ok { s1 with
    trial_end_date := some (parse_date op.trial_end_date)
    cancel_at_period_end := op.cancel_at_period_end
    creation_date := some (parse_datetime op.creation_date) }

/-- `Subscription.push`: with a remote identifier, mutate the cached remote
object (`trial_end_date.isoformat()` raises `AttributeError` when the local
date is absent, mirroring Python) and save; without one, check the customer
and card linkages, create the remote subscription under the customer scope,
optionally save the cancellation flag, store the returned identifier and
pull. -/
def Subscription.push (api : OpenpayAPI) (s : Subscription) : Res Subscription :=
  if s.openpay_id ≠ "" then
    Res.bind (if s._openpay.isNone then Subscription.retrieve api s else Res.ok s) fun s1 =>
    pyattr s1._openpay fun op =>
    pyattr s1.trial_end_date fun ted =>
    pyattr s1.card fun card =>
    let op1 : OpSubscription :=
      { op with
        trial_end_date := ted.isoformat
        card := none
        card_id := card.openpay_id
        cancel_at_period_end := s1.cancel_at_period_end }
    Res.emit [RemoteCall.subscriptionSave op1] { s1 with _openpay := some op1 }
  else
    match s.customer with
    | none => Res.err OpErr.NoCustomer
    | some cust =>
      if cust.openpay_id = "" then Res.err OpErr.NoCustomer
      else
        match s.card with
        | none => Res.err OpErr.NoCard
        | some card =>
          if card.openpay_id = "" then Res.err OpErr.NoCard
          else
            pyattr s.plan fun plan =>
            let op : OpSubscription :=
              api.subscriptionCreate cust.openpay_id (subscriptionCreateReq s card plan)
            let op1 : OpSubscription :=
              if s.cancel_at_period_end then
                { op with cancel_at_period_end := s.cancel_at_period_end }
              else op
            Res.bind (Res.emit
                ([RemoteCall.customerRetrieve cust.openpay_id,
                  RemoteCall.subscriptionCreate cust.openpay_id (subscriptionCreateReq s card plan)] ++
                  (if s.cancel_at_period_end then [RemoteCall.subscriptionSave op1] else []))
                { s with _openpay := some op1, openpay_id := op1.id }) fun s1 =>
            Subscription.pull api s1

/-- `Subscription.remove`: silently do nothing when there is no remote
identifier; otherwise retrieve if not cached and delete remotely. -/
def Subscription.remove (api : OpenpayAPI) (s : Subscription) : Res Subscription :=
  if s.openpay_id ≠ "" then
    Res.bind (if s._openpay.isNone then Subscription.retrieve api s else Res.ok s) fun s1 =>
    pyattr s1._openpay fun op =>
    Res.emit [RemoteCall.subscriptionDelete op.id] s1
  else
    Res.ok s

/-- The local `Charge` row.  `refund_flag` models the instance attribute
created by `self.refund = True` inside `Charge.refund`, which shadows the
method itself (a defect noted in the repository's own design notes); no
database column backs it. -/
structure Charge where
  openpay_id : String
  description : String
  amount : PyDecimal
  method : String
  currency : String
  customer : Option Customer
  card : Option Card
  plan : Option Plan
  creation_date : Option Datetime
  refund_flag : Option Bool
  _openpay : Option OpCharge
deriving DecidableEq, Repr

/-- The keyword arguments `Charge.push` passes to
`customer.charges.create`; the amount is `str(self.amount)` and
`capture=False`. -/
def chargeCreateReq (ch : Charge) (card : Card) (deviceId : String) : ChargeReq :=
  { source_id := card.openpay_id
    method := ch.method
    amount := decimalToString ch.amount
    currency := ch.currency
    description := ch.description
    device_session_id := deviceId
    capture := false }

/-- `Charge.retrieve`: raise `OpenpayNoCustomer` when the owning customer
is absent or never pushed; then fetch the remote charge through the
customer scope, or raise `OpenpayObjectDoesNotExist` when the charge itself
was never pushed. -/
def Charge.retrieve (api : OpenpayAPI) (ch : Charge) : Res Charge :=
  match ch.customer with
  | none => Res.err OpErr.NoCustomer
  | some cust =>
    if cust.openpay_id = "" then Res.err OpErr.NoCustomer
    else if ch.openpay_id ≠ "" then
      Res.emit
        [RemoteCall.customerRetrieve cust.openpay_id,
         RemoteCall.chargeRetrieve cust.openpay_id ch.openpay_id]
        { ch with _openpay := some (api.chargeRetrieve cust.openpay_id ch.openpay_id) }
    else
      Res.err OpErr.ObjectDoesNotExist

/-- `Charge.pull`: retrieve, then overwrite the local fields from the
remote charge; the remote amount string is parsed back through
`Decimal(...)`. -/
def Charge.pull (api : OpenpayAPI) (ch : Charge) : Res Charge :=
  Res.bind (Charge.retrieve api ch) fun ch1 =>
  pyattr ch1._openpay fun op =>
  match decimalFromString op.amount with
  | none => Res.err OpErr.InvalidOperation
  | some amt =>
    Res.ok { ch1 with
      description := op.description
      amount := amt
      method := op.method
      currency := op.currency
      creation_date := some (parse_datetime op.creation_date) }

/-- `Charge.push`: only acts when there is no remote identifier yet (there
is no update branch): check the customer and card linkages, create the
remote charge under the customer scope with `capture=False`, store the
returned identifier and pull.  With a remote identifier it silently does
nothing. -/
def Charge.push (api : OpenpayAPI) (ch : Charge) : Res Charge :=
  if ch.openpay_id = "" then
    match ch.customer with
    | none => Res.err OpErr.NoCustomer
    | some cust =>
      if cust.openpay_id = "" then Res.err OpErr.NoCustomer
      else
        match ch.card with
        | none => Res.err OpErr.NoCard
        | some card =>
          if card.openpay_id = "" then Res.err OpErr.NoCard
          else
            Res.bind (Res.emit
                [RemoteCall.customerRetrieve cust.openpay_id,
                 RemoteCall.chargeCreate cust.openpay_id (chargeCreateReq ch card api.device_id)]
                { ch with
                  _openpay := some (api.chargeCreate cust.openpay_id (chargeCreateReq ch card api.device_id))
                  openpay_id := (api.chargeCreate cust.openpay_id (chargeCreateReq ch card api.device_id)).id }) fun ch1 =>
            Charge.pull api ch1
  else
    Res.ok ch

/-- `Charge.capture`: requires a remote identifier and the card payment
method, retrieves the remote charge if not cached and captures it;
otherwise raises `OpenpayObjectDoesNotExist`. -/
def Charge.capture (api : OpenpayAPI) (ch : Charge) : Res Charge :=
  if ch.openpay_id ≠ "" ∧ ch.method = charge_method_card then
    Res.bind (if ch._openpay.isNone then Charge.retrieve api ch else Res.ok ch) fun ch1 =>
    pyattr ch1._openpay fun op =>
    Res.emit [RemoteCall.chargeCapture op.id] ch1
  else
    Res.err OpErr.ObjectDoesNotExist

/-- `Charge.refund`: with a remote identifier and the card payment method,
retrieves the remote charge if not cached, refunds it, sets `self.refund =
True` (the shadowing assignment) and saves — `save()` fires the pre-save
hook, which runs `push()`, a no-op since the identifier is set.  In any
other state it silently does nothing. -/
def Charge.refund (api : OpenpayAPI) (ch : Charge) : Res Charge :=
  if ch.openpay_id ≠ "" ∧ ch.method = charge_method_card then
    Res.bind (if ch._openpay.isNone then Charge.retrieve api ch else Res.ok ch) fun ch1 =>
    pyattr ch1._openpay fun op =>
    Res.bind (Res.emit [RemoteCall.chargeRefund op.id] { ch1 with refund_flag := some true }) fun ch2 =>
    Charge.push api ch2
  else
    Res.ok ch

/-- `Charge.remove` always raises `NotImplementedError`: charges cannot be
deleted. -/
def Charge.remove (_ch : Charge) : Res Charge :=
  Res.err OpErr.NotImplementedError

/-- The `pre_delete` receiver for `Charge`: it unconditionally calls
`remove()`, which always fails, so deleting a charge always fails before
the row is removed. -/
def charge_predelete (inst : Charge) : Res Charge :=
  Charge.remove inst

/-- Python attribute lookup for the methods of a `Charge` instance, as used
by the admin bulk actions; a name that is not a method of `Charge` yields
`none` (an `AttributeError` at call time). -/
def chargeMethodLookup (name : String) : Option (OpenpayAPI → Charge → Res Charge) :=
  if name = "push" then some Charge.push
  else if name = "pull" then some Charge.pull
  else if name = "retrieve" then some Charge.retrieve
  else if name = "remove" then some (fun _ ch => Charge.remove ch)
  else if name = "capture" then some Charge.capture
  else if name = "refund" then some Charge.refund
  else none

/-- Iterates an admin queryset, invoking the attribute named `name` on each
charge; calling a missing attribute raises `AttributeError`. -/
def runBulkChargeAction (api : OpenpayAPI) (name : String) : List Charge → Res (List Charge)
  | [] => Res.ok []
  | ch :: rest =>
    match chargeMethodLookup name with
    | none => Res.err OpErr.AttributeError
    | some f =>
      Res.bind (f api ch) fun ch1 =>
      Res.bind (runBulkChargeAction api name rest) fun rest1 =>
      Res.ok (ch1 :: rest1)

/-- The `ChargeAdmin.capture` bulk action: for each selected charge it
invokes `charge.capture_charge()` (sic — the source calls this name, not
the model's `capture`). -/
def ChargeAdmin.capture (api : OpenpayAPI) (queryset : List Charge) : Res (List Charge) :=
  runBulkChargeAction api "capture_charge" queryset

/-- The `ChargeAdmin.refund` bulk action: for each selected charge it
invokes `charge.refund_charge()` (sic — the source calls this name, not
the model's `refund`). -/
def ChargeAdmin.refund (api : OpenpayAPI) (queryset : List Charge) : Res (List Charge) :=
  runBulkChargeAction api "refund_charge" queryset

@[simp] theorem Res.bind_err (e : OpErr) (k : α → Res β) :
    Res.bind (Res.err e) k = Res.err e := rfl

@[simp] theorem Res.bind_emit (cs : List RemoteCall) (a : α) (k : α → Res β) :
    Res.bind (Res.emit cs a) k = ((k a).1, cs ++ (k a).2) := by
  rcases h : k a with ⟨r, t⟩
  simp [Res.bind, Res.emit, h]

@[simp] theorem Res.bind_ok (a : α) (k : α → Res β) : Res.bind (Res.ok a) k = k a := by
  rcases h : k a with ⟨r, t⟩
  simp [Res.bind, Res.ok, h]

@[simp] theorem pyattr_some (a : α) (k : α → Res β) : pyattr (some a) k = k a := rfl

@[simp] theorem pyattr_none (k : α → Res β) :
    pyattr none k = Res.err OpErr.AttributeError := rfl

/-! Concrete fixtures used by the witnesses. -/

/-- A concrete address row. -/
def addr0 : Address :=
  { city := "Queretaro", state := "Queretaro", line1 := "Calle 1", line2 := "",
    line3 := "", postal_code := 76000, country_code := "MX" }

/-- A concrete response oracle: creations echo the request and hand out
fixed identifiers; retrievals return fixed objects. -/
def apiDefault : OpenpayAPI :=
  { customerCreate := fun req =>
      { id := "cu1", name := req.name, last_name := req.last_name, email := req.email,
        phone_number := req.phone_number, address := req.address,
        creation_date := "2016-05-01T10:00:00" }
    customerRetrieve := fun i =>
      { id := i, name := "Ana", last_name := "Ruiz", email := "ana@example.com",
        phone_number := "5551234567", address := addr0.json_dict,
        creation_date := "2016-05-01T10:00:00" }
    cardCreate := fun _ _ _ =>
      { id := "card1", type := "debit", holder_name := "Ana Ruiz",
        card_number := "4111111111111111", expiration_month := "09",
        expiration_year := "2020", creation_date := "2016-05-02T10:00:00" }
    cardRetrieve := fun _ _ =>
      { id := "card1", type := "debit", holder_name := "Ana Ruiz",
        card_number := "4111111111111111", expiration_month := "09",
        expiration_year := "2020", creation_date := "2016-05-02T10:00:00" }
    planCreate := fun req =>
      { id := "pl1", name := req.name, amount := req.amount,
        status_after_retry := req.status_after_retry, retry_times := req.retry_times,
        repeat_unit := req.repeat_unit, trial_days := req.trial_days,
        repeat_every := req.repeat_every, creation_date := "2016-05-03T10:00:00" }
    planRetrieve := fun _ =>
      { id := "pl1", name := "Basic", amount := "199.00", status_after_retry := "unpaid",
        retry_times := 3, repeat_unit := "month", trial_days := 0, repeat_every := 1,
        creation_date := "2016-05-03T10:00:00" }
    subscriptionCreate := fun _ _ =>
      { id := "sub1", trial_end_date := "2016-06-01", cancel_at_period_end := false,
        card := none, card_id := "card1", creation_date := "2016-05-04T10:00:00" }
    subscriptionRetrieve := fun _ _ =>
      { id := "sub1", trial_end_date := "2016-06-01", cancel_at_period_end := false,
        card := none, card_id := "card1", creation_date := "2016-05-04T10:00:00" }
    chargeCreate := fun _ req =>
      { id := "ch1", description := req.description, amount := req.amount,
        method := req.method, currency := req.currency,
        creation_date := "2016-05-05T10:00:00" }
    chargeRetrieve := fun _ _ =>
      { id := "ch1", description := "d", amount := "50.00", method := "card",
        currency := "MXN", creation_date := "2016-05-05T10:00:00" }
    device_id := "dev1" }

/-- A customer that was never pushed. -/
def cust0 : Customer :=
  { openpay_id := "", first_name := "Ana", last_name := "Ruiz",
    email := "ana@example.com", phone_number := "5551234567", address := addr0,
    creation_date := none, _openpay := none }

/-- A customer with a remote identifier. -/
def custSync : Customer := { cust0 with openpay_id := "cu1" }

/-- A card that was never pushed, owned by a synchronized customer. -/
def card0 : Card :=
  { openpay_id := "", alias_ := "", card_type := "debit", holder := "Ana Ruiz",
    number := "1111", month := "09", year := "20", customer := some custSync,
    creation_date := none, _openpay := none }

/-- A card with a remote identifier. -/
def cardSync : Card := { card0 with openpay_id := "card1" }

/-- A card with a remote identifier but no customer linkage. -/
def cardNoCust : Card := { cardSync with customer := none }

/-- A card with neither remote identifier nor customer linkage. -/
def cardUnsyncNoCust : Card := { card0 with customer := none }

/-- A plan that was never pushed, amount `199.00`. -/
def plan0 : Plan :=
  { openpay_id := "", name := "Basic", amount := ⟨false, 19900, 2⟩, retry_times := 3,
    status_after_retry := "unpaid", trial_days := 0, repeat_every := 1,
    repeat_unit := "month", creation_date := none, _openpay := none }

/-- A plan with a remote identifier. -/
def planSync : Plan := { plan0 with openpay_id := "pl1" }

/-- A subscription that was never pushed, fully linked. -/
def sub0 : Subscription :=
  { openpay_id := "", customer := some custSync, card := some cardSync,
    plan := some planSync, cancel_at_period_end := false, trial_end_date := none,
    creation_date := none, _openpay := none }

/-- A subscription with a remote identifier and a trial end date. -/
def subSync : Subscription :=
  { sub0 with openpay_id := "sub1", trial_end_date := some ⟨"2016-06-01"⟩ }

/-- A subscription whose customer exists locally but was never pushed. -/
def subNoCust : Subscription := { subSync with customer := some cust0 }

/-- A charge that was never pushed, fully linked, card method. -/
def charge0 : Charge :=
  { openpay_id := "", description := "d", amount := ⟨false, 5000, 2⟩,
    method := charge_method_card, currency := "MXN", customer := some custSync,
    card := some cardSync, plan := some planSync, creation_date := none,
    refund_flag := none, _openpay := none }

/-- A charge with a remote identifier. -/
def chargeSync : Charge := { charge0 with openpay_id := "ch1" }

/-- A charge with a remote identifier but a non-card payment method. -/
def chargeStore : Charge := { chargeSync with method := "store" }

/-- A charge with a remote identifier but no customer linkage. -/
def chargeNoCust : Charge := { chargeSync with customer := none }

/-! Claim theorems. -/

/-- Claim C4: the Charge delete path always fails — the pre-delete hook
unconditionally calls `remove()`, `Charge.remove()` always raises
`NotImplementedError`, and no remote call (in particular no remote delete)
is ever issued for a Charge on this path. -/
theorem claim_C4_charge_delete_always_fails :
    ∀ ch : Charge,
      charge_predelete ch = Charge.remove ch ∧
      Charge.remove ch = (Except.error OpErr.NotImplementedError, ([] : List RemoteCall)) ∧
      ∀ i, RemoteCall.chargeDelete i ∉ (charge_predelete ch).2 := by
  intro ch
  refine ⟨rfl, rfl, ?_⟩
  intro i
  simp [charge_predelete, Charge.remove, Res.err]

/-- Claim C7: `capture()` on a Charge whose method is not the card payment
method raises `OpenpayObjectDoesNotExist` and performs no remote call,
whatever the state of its remote identifier. -/
theorem claim_C7_capture_non_card_method (api : OpenpayAPI) (ch : Charge)
    (h : ch.method ≠ charge_method_card) :
    Charge.capture api ch = (Except.error OpErr.ObjectDoesNotExist, ([] : List RemoteCall)) := by
  simp [Charge.capture, h, Res.err]

/-- Witness for C7 at a charge with a remote identifier and method
`"store"`. -/
theorem claim_C7_witness :
    chargeStore.method ≠ charge_method_card ∧ chargeStore.openpay_id ≠ "" ∧
    Charge.capture apiDefault chargeStore =
      (Except.error OpErr.ObjectDoesNotExist, ([] : List RemoteCall)) :=
  ⟨by decide, by decide, claim_C7_capture_non_card_method apiDefault chargeStore (by decide)⟩

/-- Claim C10: `remove()` on a Customer, Card, Plan or Subscription with an
empty remote identifier is a silent no-op: no error, no remote call, the
record returned unchanged. -/
theorem claim_C10_remove_silent_noop :
    (∀ (api : OpenpayAPI) (c : Customer), c.openpay_id = "" →
      Customer.remove api c = (Except.ok c, ([] : List RemoteCall))) ∧
    (∀ (api : OpenpayAPI) (c : Card), c.openpay_id = "" →
      Card.remove api c = (Except.ok c, ([] : List RemoteCall))) ∧
    (∀ (api : OpenpayAPI) (p : Plan), p.openpay_id = "" →
      Plan.remove api p = (Except.ok p, ([] : List RemoteCall))) ∧
    (∀ (api : OpenpayAPI) (s : Subscription), s.openpay_id = "" →
      Subscription.remove api s = (Except.ok s, ([] : List RemoteCall))) := by
  refine ⟨?_, ?_, ?_, ?_⟩ <;>
    · intro api x h
      simp [Customer.remove, Card.remove, Plan.remove, Subscription.remove, h, Res.ok]

/-- Witness for C10 at the unsynchronized fixtures. -/
theorem claim_C10_witness :
    cust0.openpay_id = "" ∧
    Customer.remove apiDefault cust0 = (Except.ok cust0, ([] : List RemoteCall)) ∧
    card0.openpay_id = "" ∧
    Card.remove apiDefault card0 = (Except.ok card0, ([] : List RemoteCall)) ∧
    plan0.openpay_id = "" ∧
    Plan.remove apiDefault plan0 = (Except.ok plan0, ([] : List RemoteCall)) ∧
    sub0.openpay_id = "" ∧
    Subscription.remove apiDefault sub0 = (Except.ok sub0, ([] : List RemoteCall)) :=
  ⟨rfl, claim_C10_remove_silent_noop.1 apiDefault cust0 rfl,
   rfl, claim_C10_remove_silent_noop.2.1 apiDefault card0 rfl,
   rfl, claim_C10_remove_silent_noop.2.2.1 apiDefault plan0 rfl,
   rfl, claim_C10_remove_silent_noop.2.2.2 apiDefault sub0 rfl⟩

/-- The owning customer linkage is missing: either no customer is set or
the customer has an empty remote identifier. -/
def noCustomerLinkage : Option Customer → Bool
  | none => true
  | some c => c.openpay_id == ""

/-- Claim C3: `retrieve()` on a Card, Subscription or Charge whose owning
customer linkage is missing raises `OpenpayNoCustomer` with no remote call,
regardless of the entity's own remote identifier. -/
theorem claim_C3_missing_customer_linkage :
    (∀ (api : OpenpayAPI) (c : Card), noCustomerLinkage c.customer = true →
      Card.retrieve api c = (Except.error OpErr.NoCustomer, ([] : List RemoteCall))) ∧
    (∀ (api : OpenpayAPI) (s : Subscription), noCustomerLinkage s.customer = true →
      Subscription.retrieve api s = (Except.error OpErr.NoCustomer, ([] : List RemoteCall))) ∧
    (∀ (api : OpenpayAPI) (ch : Charge), noCustomerLinkage ch.customer = true →
      Charge.retrieve api ch = (Except.error OpErr.NoCustomer, ([] : List RemoteCall))) := by
  refine ⟨?_, ?_, ?_⟩
  · intro api c h
    cases hc : c.customer with
    | none => simp [Card.retrieve, hc, Res.err]
    | some cust =>
      have hz : cust.openpay_id = "" := by
        have := h
        rw [hc] at this
        simpa [noCustomerLinkage] using this
      simp [Card.retrieve, hc, hz, Res.err]
  · intro api s h
    cases hc : s.customer with
    | none => simp [Subscription.retrieve, hc, Res.err]
    | some cust =>
      have hz : cust.openpay_id = "" := by
        have := h
        rw [hc] at this
        simpa [noCustomerLinkage] using this
      simp [Subscription.retrieve, hc, hz, Res.err]
  · intro api ch h
    cases hc : ch.customer with
    | none => simp [Charge.retrieve, hc, Res.err]
    | some cust =>
      have hz : cust.openpay_id = "" := by
        have := h
        rw [hc] at this
        simpa [noCustomerLinkage] using this
      simp [Charge.retrieve, hc, hz, Res.err]

/-- Witness for C3: a card with no customer set, a subscription and a
charge with an unsynchronized customer — all with their own remote
identifier present. -/
theorem claim_C3_witness :
    noCustomerLinkage cardNoCust.customer = true ∧ cardNoCust.openpay_id ≠ "" ∧
    Card.retrieve apiDefault cardNoCust =
      (Except.error OpErr.NoCustomer, ([] : List RemoteCall)) ∧
    noCustomerLinkage subNoCust.customer = true ∧ subNoCust.openpay_id ≠ "" ∧
    Subscription.retrieve apiDefault subNoCust =
      (Except.error OpErr.NoCustomer, ([] : List RemoteCall)) ∧
    noCustomerLinkage chargeNoCust.customer = true ∧ chargeNoCust.openpay_id ≠ "" ∧
    Charge.retrieve apiDefault chargeNoCust =
      (Except.error OpErr.NoCustomer, ([] : List RemoteCall)) :=
  ⟨by decide, by decide, claim_C3_missing_customer_linkage.1 apiDefault cardNoCust (by decide),
   by decide, by decide, claim_C3_missing_customer_linkage.2.1 apiDefault subNoCust (by decide),
   by decide, by decide, claim_C3_missing_customer_linkage.2.2 apiDefault chargeNoCust (by decide)⟩

/-- Counterexample to claim C2 as stated: a Card with an empty remote
identifier whose customer linkage is also missing fails with
`OpenpayNoCustomer`, not with `OpenpayObjectDoesNotExist` (it still makes
no remote call). -/
theorem claim_C2_counterexample :
    cardUnsyncNoCust.openpay_id = "" ∧
    Card.retrieve apiDefault cardUnsyncNoCust =
      (Except.error OpErr.NoCustomer, ([] : List RemoteCall)) ∧
    OpErr.NoCustomer ≠ OpErr.ObjectDoesNotExist :=
  ⟨rfl, rfl, by decide⟩

/-- Claim C2 (amended): `retrieve()` with an empty remote identifier never
performs a remote call; it raises `OpenpayObjectDoesNotExist` for Customer
and Plan always, and for Card, Subscription and Charge whenever the owning
customer linkage is present and synchronized (otherwise the customer check
raises `OpenpayNoCustomer` first, still with no remote call). -/
theorem claim_C2_retrieve_unsynced :
    (∀ (api : OpenpayAPI) (c : Customer), c.openpay_id = "" →
      Customer.retrieve api c =
        (Except.error OpErr.ObjectDoesNotExist, ([] : List RemoteCall))) ∧
    (∀ (api : OpenpayAPI) (p : Plan), p.openpay_id = "" →
      Plan.retrieve api p =
        (Except.error OpErr.ObjectDoesNotExist, ([] : List RemoteCall))) ∧
    (∀ (api : OpenpayAPI) (c : Card) (cust : Customer),
      c.customer = some cust → cust.openpay_id ≠ "" → c.openpay_id = "" →
      Card.retrieve api c =
        (Except.error OpErr.ObjectDoesNotExist, ([] : List RemoteCall))) ∧
    (∀ (api : OpenpayAPI) (s : Subscription) (cust : Customer),
      s.customer = some cust → cust.openpay_id ≠ "" → s.openpay_id = "" →
      Subscription.retrieve api s =
        (Except.error OpErr.ObjectDoesNotExist, ([] : List RemoteCall))) ∧
    (∀ (api : OpenpayAPI) (ch : Charge) (cust : Customer),
      ch.customer = some cust → cust.openpay_id ≠ "" → ch.openpay_id = "" →
      Charge.retrieve api ch =
        (Except.error OpErr.ObjectDoesNotExist, ([] : List RemoteCall))) ∧
    (∀ (api : OpenpayAPI) (c : Card), c.openpay_id = "" →
      (Card.retrieve api c).2 = []) ∧
    (∀ (api : OpenpayAPI) (s : Subscription), s.openpay_id = "" →
      (Subscription.retrieve api s).2 = []) ∧
    (∀ (api : OpenpayAPI) (ch : Charge), ch.openpay_id = "" →
      (Charge.retrieve api ch).2 = []) := by
  refine ⟨?_, ?_, ?_, ?_, ?_, ?_, ?_, ?_⟩
  · intro api c h
    simp [Customer.retrieve, h, Res.err]
  · intro api p h
    simp [Plan.retrieve, h, Res.err]
  · intro api c cust hc hz h
    simp [Card.retrieve, hc, hz, h, Res.err]
  · intro api s cust hc hz h
    simp [Subscription.retrieve, hc, hz, h, Res.err]
  · intro api ch cust hc hz h
    simp [Charge.retrieve, hc, hz, h, Res.err]
  · intro api c h
    cases hc : c.customer with
    | none => simp [Card.retrieve, hc, Res.err]
    | some cust =>
      by_cases hz : cust.openpay_id = "" <;>
        simp [Card.retrieve, hc, hz, h, Res.err]
  · intro api s h
    cases hc : s.customer with
    | none => simp [Subscription.retrieve, hc, Res.err]
    | some cust =>
      by_cases hz : cust.openpay_id = "" <;>
        simp [Subscription.retrieve, hc, hz, h, Res.err]
  · intro api ch h
    cases hc : ch.customer with
    | none => simp [Charge.retrieve, hc, Res.err]
    | some cust =>
      by_cases hz : cust.openpay_id = "" <;>
        simp [Charge.retrieve, hc, hz, h, Res.err]

/-- Witness for the amended C2 at the unsynchronized fixtures. -/
theorem claim_C2_witness :
    cust0.openpay_id = "" ∧
    Customer.retrieve apiDefault cust0 =
      (Except.error OpErr.ObjectDoesNotExist, ([] : List RemoteCall)) ∧
    plan0.openpay_id = "" ∧
    Plan.retrieve apiDefault plan0 =
      (Except.error OpErr.ObjectDoesNotExist, ([] : List RemoteCall)) ∧
    card0.customer = some custSync ∧ custSync.openpay_id ≠ "" ∧ card0.openpay_id = "" ∧
    Card.retrieve apiDefault card0 =
      (Except.error OpErr.ObjectDoesNotExist, ([] : List RemoteCall)) ∧
    sub0.customer = some custSync ∧ sub0.openpay_id = "" ∧
    Subscription.retrieve apiDefault sub0 =
      (Except.error OpErr.ObjectDoesNotExist, ([] : List RemoteCall)) ∧
    charge0.customer = some custSync ∧ charge0.openpay_id = "" ∧
    Charge.retrieve apiDefault charge0 =
      (Except.error OpErr.ObjectDoesNotExist, ([] : List RemoteCall)) ∧
    (Card.retrieve apiDefault cardUnsyncNoCust).2 = [] :=
  ⟨rfl, claim_C2_retrieve_unsynced.1 apiDefault cust0 rfl,
   rfl, claim_C2_retrieve_unsynced.2.1 apiDefault plan0 rfl,
   rfl, by decide, rfl,
   claim_C2_retrieve_unsynced.2.2.1 apiDefault card0 custSync rfl (by decide) rfl,
   rfl, rfl,
   claim_C2_retrieve_unsynced.2.2.2.1 apiDefault sub0 custSync rfl (by decide) rfl,
   rfl, rfl,
   claim_C2_retrieve_unsynced.2.2.2.2.1 apiDefault charge0 custSync rfl (by decide) rfl,
   claim_C2_retrieve_unsynced.2.2.2.2.2.1 apiDefault cardUnsyncNoCust rfl⟩

/-- `s[-n:]` has at most `n` characters. -/
theorem pyLastChars_length (n : Nat) (s : String) : (pyLastChars n s).length ≤ n := by
  have h : (pyLastChars n s).length = ((s.data.reverse.take n).reverse).length := rfl
  rw [h, List.length_reverse, List.length_take]
  exact min_le_left _ _

/-- Claim C5: both the tokenized factory and `Card.pull` store only the
last 4 characters of the remote card number (hence never a full card
number) and the last 2 characters of the remote expiry month and year. -/
theorem claim_C5_card_masking :
    (∀ (api : OpenpayAPI) (customers : String → Option Customer)
        (cid tid did al : String) (cust : Customer),
      customers cid = some cust →
      ∃ (card : Card) (t : List RemoteCall),
        Card.tokenized_create api customers cid tid did al = (Except.ok card, t) ∧
        card.number = pyLastChars 4 (api.cardCreate cid tid did).card_number ∧
        card.number.length ≤ 4 ∧
        card.month = pyLastChars 2 (api.cardCreate cid tid did).expiration_month ∧
        card.month.length ≤ 2 ∧
        card.year = pyLastChars 2 (api.cardCreate cid tid did).expiration_year ∧
        card.year.length ≤ 2) ∧
    (∀ (api : OpenpayAPI) (c : Card) (cust : Customer),
      c.customer = some cust → cust.openpay_id ≠ "" → c.openpay_id ≠ "" →
      ∃ (card : Card) (t : List RemoteCall),
        Card.pull api c = (Except.ok card, t) ∧
        card.number = pyLastChars 4 (api.cardRetrieve cust.openpay_id c.openpay_id).card_number ∧
        card.number.length ≤ 4 ∧
        card.month = pyLastChars 2 (api.cardRetrieve cust.openpay_id c.openpay_id).expiration_month ∧
        card.month.length ≤ 2 ∧
        card.year = pyLastChars 2 (api.cardRetrieve cust.openpay_id c.openpay_id).expiration_year ∧
        card.year.length ≤ 2) := by
  constructor
  · intro api customers cid tid did al cust hcust
    refine ⟨{ openpay_id := (api.cardCreate cid tid did).id
              alias_ := al
              card_type := (api.cardCreate cid tid did).type
              holder := (api.cardCreate cid tid did).holder_name
              number := pyLastChars 4 (api.cardCreate cid tid did).card_number
              month := pyLastChars 2 (api.cardCreate cid tid did).expiration_month
              year := pyLastChars 2 (api.cardCreate cid tid did).expiration_year
              creation_date := some (parse_datetime (api.cardCreate cid tid did).creation_date)
              customer := some cust
              _openpay := some (api.cardCreate cid tid did) },
      [RemoteCall.cardCreate cid tid did], ?_, rfl, pyLastChars_length _ _,
      rfl, pyLastChars_length _ _, rfl, pyLastChars_length _ _⟩
    simp [Card.tokenized_create, hcust, Res.ok]
  · intro api c cust hc hz h
    refine ⟨{ c with
              _openpay := some (api.cardRetrieve cust.openpay_id c.openpay_id)
              card_type := (api.cardRetrieve cust.openpay_id c.openpay_id).type
              holder := (api.cardRetrieve cust.openpay_id c.openpay_id).holder_name
              number := pyLastChars 4 (api.cardRetrieve cust.openpay_id c.openpay_id).card_number
              month := pyLastChars 2 (api.cardRetrieve cust.openpay_id c.openpay_id).expiration_month
              year := pyLastChars 2 (api.cardRetrieve cust.openpay_id c.openpay_id).expiration_year
              creation_date := some (parse_datetime (api.cardRetrieve cust.openpay_id c.openpay_id).creation_date) },
      [RemoteCall.customerRetrieve cust.openpay_id,
       RemoteCall.cardRetrieve cust.openpay_id c.openpay_id],
      ?_, rfl, pyLastChars_length _ _, rfl, pyLastChars_length _ _,
      rfl, pyLastChars_length _ _⟩
    simp [Card.pull, Card.retrieve, hc, hz, h, Res.ok]

/-- Witness for C5: tokenized creation under the concrete oracle and a pull
of the synchronized card fixture. -/
theorem claim_C5_witness :
    (fun i => if i = "cu1" then some custSync else none) "cu1" = some custSync ∧
    (∃ (card : Card) (t : List RemoteCall),
      Card.tokenized_create apiDefault
          (fun i => if i = "cu1" then some custSync else none)
          "cu1" "tok1" "dev1" "mine" = (Except.ok card, t) ∧
      card.number = pyLastChars 4 (apiDefault.cardCreate "cu1" "tok1" "dev1").card_number ∧
      card.number.length ≤ 4 ∧
      card.month = pyLastChars 2 (apiDefault.cardCreate "cu1" "tok1" "dev1").expiration_month ∧
      card.month.length ≤ 2 ∧
      card.year = pyLastChars 2 (apiDefault.cardCreate "cu1" "tok1" "dev1").expiration_year ∧
      card.year.length ≤ 2) ∧
    cardSync.customer = some custSync ∧ custSync.openpay_id ≠ "" ∧ cardSync.openpay_id ≠ "" ∧
    (∃ (card : Card) (t : List RemoteCall),
      Card.pull apiDefault cardSync = (Except.ok card, t) ∧
      card.number = pyLastChars 4 (apiDefault.cardRetrieve custSync.openpay_id cardSync.openpay_id).card_number ∧
      card.number.length ≤ 4 ∧
      card.month = pyLastChars 2 (apiDefault.cardRetrieve custSync.openpay_id cardSync.openpay_id).expiration_month ∧
      card.month.length ≤ 2 ∧
      card.year = pyLastChars 2 (apiDefault.cardRetrieve custSync.openpay_id cardSync.openpay_id).expiration_year ∧
      card.year.length ≤ 2) :=
  ⟨rfl,
   claim_C5_card_masking.1 apiDefault
     (fun i => if i = "cu1" then some custSync else none) "cu1" "tok1" "dev1" "mine"
     custSync rfl,
   rfl, by decide, by decide,
   claim_C5_card_masking.2 apiDefault cardSync custSync rfl (by decide) (by decide)⟩

/-- Claim C6 evidence: the admin bulk actions call `capture_charge()` and
`refund_charge()`, which are not methods of `Charge` (the methods are named
`capture` and `refund`), so both actions raise `AttributeError` on any
nonempty selection and never issue a remote capture or refund call. -/
theorem claim_C6_admin_actions_attribute_error :
    ChargeAdmin.capture apiDefault [chargeSync] =
      (Except.error OpErr.AttributeError, ([] : List RemoteCall)) ∧
    ChargeAdmin.refund apiDefault [chargeSync] =
      (Except.error OpErr.AttributeError, ([] : List RemoteCall)) ∧
    (∀ i, RemoteCall.chargeCapture i ∉ (ChargeAdmin.capture apiDefault [chargeSync]).2) ∧
    (∀ i, RemoteCall.chargeRefund i ∉ (ChargeAdmin.refund apiDefault [chargeSync]).2) ∧
    chargeMethodLookup "capture_charge" = none ∧
    chargeMethodLookup "refund_charge" = none ∧
    (chargeMethodLookup "capture").isSome = true ∧
    (chargeMethodLookup "refund").isSome = true := by
  have h1 : ChargeAdmin.capture apiDefault [chargeSync] =
      (Except.error OpErr.AttributeError, ([] : List RemoteCall)) := rfl
  have h2 : ChargeAdmin.refund apiDefault [chargeSync] =
      (Except.error OpErr.AttributeError, ([] : List RemoteCall)) := rfl
  refine ⟨h1, h2, ?_, ?_, rfl, rfl, rfl, rfl⟩
  · intro i
    rw [h1]
    simp
  · intro i
    rw [h2]
    simp

/-- Claim C1: for Customer, Plan, Subscription and Charge, `push()` on a
record with an empty remote identifier issues the remote create call built
from the local field values, stores the returned identifier, and then runs
`pull()`, so the creation timestamp parsed from the re-fetched remote
object is stored locally.  (The remote is assumed to hand out a non-empty
identifier; for Plan and Charge the re-fetched amount string must parse,
which `decimal_roundtrip` guarantees for an echoing remote.) -/
theorem claim_C1_push_create_syncs :
    (∀ (api : OpenpayAPI) (c : Customer), c.openpay_id = "" →
      (api.customerCreate (customerCreateReq c)).id ≠ "" →
      ∃ (c' : Customer) (t : List RemoteCall),
        Customer.push api c = (Except.ok c', t) ∧
        RemoteCall.customerCreate (customerCreateReq c) ∈ t ∧
        c'.openpay_id = (api.customerCreate (customerCreateReq c)).id ∧
        RemoteCall.customerRetrieve (api.customerCreate (customerCreateReq c)).id ∈ t ∧
        c'.creation_date = some (parse_datetime
          (api.customerRetrieve (api.customerCreate (customerCreateReq c)).id).creation_date)) ∧
    (∀ (api : OpenpayAPI) (p : Plan) (amt : PyDecimal), p.openpay_id = "" →
      (api.planCreate (planCreateReq p)).id ≠ "" →
      decimalFromString (api.planRetrieve (api.planCreate (planCreateReq p)).id).amount = some amt →
      ∃ (p' : Plan) (t : List RemoteCall),
        Plan.push api p = (Except.ok p', t) ∧
        RemoteCall.planCreate (planCreateReq p) ∈ t ∧
        p'.openpay_id = (api.planCreate (planCreateReq p)).id ∧
        RemoteCall.planRetrieve (api.planCreate (planCreateReq p)).id ∈ t ∧
        p'.creation_date = some (parse_datetime
          (api.planRetrieve (api.planCreate (planCreateReq p)).id).creation_date)) ∧
    (∀ (api : OpenpayAPI) (s : Subscription) (cust : Customer) (card : Card) (plan : Plan),
      s.openpay_id = "" →
      s.customer = some cust → cust.openpay_id ≠ "" →
      s.card = some card → card.openpay_id ≠ "" →
      s.plan = some plan →
      (api.subscriptionCreate cust.openpay_id (subscriptionCreateReq s card plan)).id ≠ "" →
      ∃ (s' : Subscription) (t : List RemoteCall),
        Subscription.push api s = (Except.ok s', t) ∧
        RemoteCall.subscriptionCreate cust.openpay_id (subscriptionCreateReq s card plan) ∈ t ∧
        s'.openpay_id = (api.subscriptionCreate cust.openpay_id (subscriptionCreateReq s card plan)).id ∧
        RemoteCall.subscriptionRetrieve cust.openpay_id
          (api.subscriptionCreate cust.openpay_id (subscriptionCreateReq s card plan)).id ∈ t ∧
        s'.creation_date = some (parse_datetime
          (api.subscriptionRetrieve cust.openpay_id
            (api.subscriptionCreate cust.openpay_id (subscriptionCreateReq s card plan)).id).creation_date)) ∧
    (∀ (api : OpenpayAPI) (ch : Charge) (cust : Customer) (card : Card) (amt : PyDecimal),
      ch.openpay_id = "" →
      ch.customer = some cust → cust.openpay_id ≠ "" →
      ch.card = some card → card.openpay_id ≠ "" →
      decimalFromString (api.chargeRetrieve cust.openpay_id
        (api.chargeCreate cust.openpay_id (chargeCreateReq ch card api.device_id)).id).amount = some amt →
      (api.chargeCreate cust.openpay_id (chargeCreateReq ch card api.device_id)).id ≠ "" →
      ∃ (ch' : Charge) (t : List RemoteCall),
        Charge.push api ch = (Except.ok ch', t) ∧
        RemoteCall.chargeCreate cust.openpay_id (chargeCreateReq ch card api.device_id) ∈ t ∧
        ch'.openpay_id = (api.chargeCreate cust.openpay_id (chargeCreateReq ch card api.device_id)).id ∧
        RemoteCall.chargeRetrieve cust.openpay_id
          (api.chargeCreate cust.openpay_id (chargeCreateReq ch card api.device_id)).id ∈ t ∧
        ch'.creation_date = some (parse_datetime
          (api.chargeRetrieve cust.openpay_id
            (api.chargeCreate cust.openpay_id (chargeCreateReq ch card api.device_id)).id).creation_date)) := by
  refine ⟨?_, ?_, ?_, ?_⟩
  · intro api c h hid
    refine ⟨{ c with
              openpay_id := (api.customerCreate (customerCreateReq c)).id
              first_name := (api.customerRetrieve (api.customerCreate (customerCreateReq c)).id).name
              last_name := (api.customerRetrieve (api.customerCreate (customerCreateReq c)).id).last_name
              email := (api.customerRetrieve (api.customerCreate (customerCreateReq c)).id).email
              phone_number := (api.customerRetrieve (api.customerCreate (customerCreateReq c)).id).phone_number
              creation_date := some (parse_datetime
                (api.customerRetrieve (api.customerCreate (customerCreateReq c)).id).creation_date)
              _openpay := some (api.customerRetrieve (api.customerCreate (customerCreateReq c)).id) },
      [RemoteCall.customerCreate (customerCreateReq c),
       RemoteCall.customerRetrieve (api.customerCreate (customerCreateReq c)).id],
      ?_, by simp, rfl, by simp, rfl⟩
    simp [Customer.push, h, Customer.pull, Customer.retrieve, hid, Res.ok]
  · intro api p amt h hid hamt
    refine ⟨{ p with
              openpay_id := (api.planCreate (planCreateReq p)).id
              name := (api.planRetrieve (api.planCreate (planCreateReq p)).id).name
              amount := amt
              status_after_retry := (api.planRetrieve (api.planCreate (planCreateReq p)).id).status_after_retry
              retry_times := (api.planRetrieve (api.planCreate (planCreateReq p)).id).retry_times
              repeat_unit := (api.planRetrieve (api.planCreate (planCreateReq p)).id).repeat_unit
              trial_days := (api.planRetrieve (api.planCreate (planCreateReq p)).id).trial_days
              repeat_every := (api.planRetrieve (api.planCreate (planCreateReq p)).id).repeat_every
              creation_date := some (parse_datetime
                (api.planRetrieve (api.planCreate (planCreateReq p)).id).creation_date)
              _openpay := some (api.planRetrieve (api.planCreate (planCreateReq p)).id) },
      [RemoteCall.planCreate (planCreateReq p),
       RemoteCall.planRetrieve (api.planCreate (planCreateReq p)).id],
      ?_, by simp, rfl, by simp, rfl⟩
    simp [Plan.push, h, Plan.pull, Plan.retrieve, hid, hamt, Res.ok]
  · intro api s cust card plan h hcust hcz hcard hkz hplan hid
    by_cases hcape : s.cancel_at_period_end
    · refine ⟨{ s with
                openpay_id := (api.subscriptionCreate cust.openpay_id (subscriptionCreateReq s card plan)).id
                trial_end_date := some (parse_date
                  (api.subscriptionRetrieve cust.openpay_id
                    (api.subscriptionCreate cust.openpay_id (subscriptionCreateReq s card plan)).id).trial_end_date)
                cancel_at_period_end := (api.subscriptionRetrieve cust.openpay_id
                  (api.subscriptionCreate cust.openpay_id (subscriptionCreateReq s card plan)).id).cancel_at_period_end
                creation_date := some (parse_datetime
                  (api.subscriptionRetrieve cust.openpay_id
                    (api.subscriptionCreate cust.openpay_id (subscriptionCreateReq s card plan)).id).creation_date)
                _openpay := some (api.subscriptionRetrieve cust.openpay_id
                  (api.subscriptionCreate cust.openpay_id (subscriptionCreateReq s card plan)).id) },
        [RemoteCall.customerRetrieve cust.openpay_id,
         RemoteCall.subscriptionCreate cust.openpay_id (subscriptionCreateReq s card plan),
         RemoteCall.subscriptionSave
           { api.subscriptionCreate cust.openpay_id (subscriptionCreateReq s card plan) with
             cancel_at_period_end := s.cancel_at_period_end },
         RemoteCall.customerRetrieve cust.openpay_id,
         RemoteCall.subscriptionRetrieve cust.openpay_id
           (api.subscriptionCreate cust.openpay_id (subscriptionCreateReq s card plan)).id],
        ?_, by simp, rfl, by simp, rfl⟩
      simp [Subscription.push, h, hcust, hcz, hcard, hkz, hplan, hcape,
        Subscription.pull, Subscription.retrieve, hid, Res.ok]
    · refine ⟨{ s with
                openpay_id := (api.subscriptionCreate cust.openpay_id (subscriptionCreateReq s card plan)).id
                trial_end_date := some (parse_date
                  (api.subscriptionRetrieve cust.openpay_id
                    (api.subscriptionCreate cust.openpay_id (subscriptionCreateReq s card plan)).id).trial_end_date)
                cancel_at_period_end := (api.subscriptionRetrieve cust.openpay_id
                  (api.subscriptionCreate cust.openpay_id (subscriptionCreateReq s card plan)).id).cancel_at_period_end
                creation_date := some (parse_datetime
                  (api.subscriptionRetrieve cust.openpay_id
                    (api.subscriptionCreate cust.openpay_id (subscriptionCreateReq s card plan)).id).creation_date)
                _openpay := some (api.subscriptionRetrieve cust.openpay_id
                  (api.subscriptionCreate cust.openpay_id (subscriptionCreateReq s card plan)).id) },
        [RemoteCall.customerRetrieve cust.openpay_id,
         RemoteCall.subscriptionCreate cust.openpay_id (subscriptionCreateReq s card plan),
         RemoteCall.customerRetrieve cust.openpay_id,
         RemoteCall.subscriptionRetrieve cust.openpay_id
           (api.subscriptionCreate cust.openpay_id (subscriptionCreateReq s card plan)).id],
        ?_, by simp, rfl, by simp, rfl⟩
      simp [Subscription.push, h, hcust, hcz, hcard, hkz, hplan, hcape,
        Subscription.pull, Subscription.retrieve, hid, Res.ok]
  · intro api ch cust card amt h hcust hcz hcard hkz hamt hid
    refine ⟨{ ch with
              openpay_id := (api.chargeCreate cust.openpay_id (chargeCreateReq ch card api.device_id)).id
              description := (api.chargeRetrieve cust.openpay_id
                (api.chargeCreate cust.openpay_id (chargeCreateReq ch card api.device_id)).id).description
              amount := amt
              method := (api.chargeRetrieve cust.openpay_id
                (api.chargeCreate cust.openpay_id (chargeCreateReq ch card api.device_id)).id).method
              currency := (api.chargeRetrieve cust.openpay_id
                (api.chargeCreate cust.openpay_id (chargeCreateReq ch card api.device_id)).id).currency
              creation_date := some (parse_datetime
                (api.chargeRetrieve cust.openpay_id
                  (api.chargeCreate cust.openpay_id (chargeCreateReq ch card api.device_id)).id).creation_date)
              _openpay := some (api.chargeRetrieve cust.openpay_id
                (api.chargeCreate cust.openpay_id (chargeCreateReq ch card api.device_id)).id) },
      [RemoteCall.customerRetrieve cust.openpay_id,
       RemoteCall.chargeCreate cust.openpay_id (chargeCreateReq ch card api.device_id),
       RemoteCall.customerRetrieve cust.openpay_id,
       RemoteCall.chargeRetrieve cust.openpay_id
         (api.chargeCreate cust.openpay_id (chargeCreateReq ch card api.device_id)).id],
      ?_, by simp, rfl, by simp, rfl⟩
    simp [Charge.push, h, hcust, hcz, hcard, hkz, Charge.pull, Charge.retrieve, hid, hamt, Res.ok]

/-- Witness for C1: pushes of the four unsynchronized fixtures against the
concrete oracle. -/
theorem claim_C1_witness :
    cust0.openpay_id = "" ∧
    (apiDefault.customerCreate (customerCreateReq cust0)).id ≠ "" ∧
    (∃ (c' : Customer) (t : List RemoteCall),
      Customer.push apiDefault cust0 = (Except.ok c', t) ∧
      RemoteCall.customerCreate (customerCreateReq cust0) ∈ t ∧
      c'.openpay_id = (apiDefault.customerCreate (customerCreateReq cust0)).id ∧
      RemoteCall.customerRetrieve (apiDefault.customerCreate (customerCreateReq cust0)).id ∈ t ∧
      c'.creation_date = some (parse_datetime
        (apiDefault.customerRetrieve
          (apiDefault.customerCreate (customerCreateReq cust0)).id).creation_date)) ∧
    plan0.openpay_id = "" ∧
    (∃ (p' : Plan) (t : List RemoteCall),
      Plan.push apiDefault plan0 = (Except.ok p', t) ∧
      RemoteCall.planCreate (planCreateReq plan0) ∈ t ∧
      p'.openpay_id = (apiDefault.planCreate (planCreateReq plan0)).id ∧
      RemoteCall.planRetrieve (apiDefault.planCreate (planCreateReq plan0)).id ∈ t ∧
      p'.creation_date = some (parse_datetime
        (apiDefault.planRetrieve
          (apiDefault.planCreate (planCreateReq plan0)).id).creation_date)) ∧
    sub0.openpay_id = "" ∧
    (∃ (s' : Subscription) (t : List RemoteCall),
      Subscription.push apiDefault sub0 = (Except.ok s', t) ∧
      RemoteCall.subscriptionCreate custSync.openpay_id
        (subscriptionCreateReq sub0 cardSync planSync) ∈ t ∧
      s'.openpay_id = (apiDefault.subscriptionCreate custSync.openpay_id
        (subscriptionCreateReq sub0 cardSync planSync)).id ∧
      RemoteCall.subscriptionRetrieve custSync.openpay_id
        (apiDefault.subscriptionCreate custSync.openpay_id
          (subscriptionCreateReq sub0 cardSync planSync)).id ∈ t ∧
      s'.creation_date = some (parse_datetime
        (apiDefault.subscriptionRetrieve custSync.openpay_id
          (apiDefault.subscriptionCreate custSync.openpay_id
            (subscriptionCreateReq sub0 cardSync planSync)).id).creation_date)) ∧
    charge0.openpay_id = "" ∧
    (∃ (ch' : Charge) (t : List RemoteCall),
      Charge.push apiDefault charge0 = (Except.ok ch', t) ∧
      RemoteCall.chargeCreate custSync.openpay_id
        (chargeCreateReq charge0 cardSync apiDefault.device_id) ∈ t ∧
      ch'.openpay_id = (apiDefault.chargeCreate custSync.openpay_id
        (chargeCreateReq charge0 cardSync apiDefault.device_id)).id ∧
      RemoteCall.chargeRetrieve custSync.openpay_id
        (apiDefault.chargeCreate custSync.openpay_id
          (chargeCreateReq charge0 cardSync apiDefault.device_id)).id ∈ t ∧
      ch'.creation_date = some (parse_datetime
        (apiDefault.chargeRetrieve custSync.openpay_id
          (apiDefault.chargeCreate custSync.openpay_id
            (chargeCreateReq charge0 cardSync apiDefault.device_id)).id).creation_date)) :=
  ⟨rfl, by decide,
   claim_C1_push_create_syncs.1 apiDefault cust0 rfl (by decide),
   rfl,
   claim_C1_push_create_syncs.2.1 apiDefault plan0 ⟨false, 19900, 2⟩ rfl (by decide) (by decide),
   rfl,
   claim_C1_push_create_syncs.2.2.1 apiDefault sub0 custSync cardSync planSync
     rfl rfl (by decide) rfl (by decide) rfl (by decide),
   rfl,
   claim_C1_push_create_syncs.2.2.2 apiDefault charge0 custSync cardSync ⟨false, 5000, 2⟩
     rfl rfl (by decide) rfl (by decide) (by decide) (by decide)⟩

/-- Claim C8: `Plan.push` transmits the amount as its exact decimal string
`str(self.amount)`, and when the remote echoes that string back, the
`Decimal(...)` parse in `pull` restores the original amount exactly — no
floating point is involved anywhere on this path. -/
theorem claim_C8_plan_amount_exact (api : OpenpayAPI) (p : Plan)
    (h : p.openpay_id = "") (hpl : p.amount.places ≤ 2)
    (hid : (api.planCreate (planCreateReq p)).id ≠ "")
    (hecho : (api.planRetrieve (api.planCreate (planCreateReq p)).id).amount =
      (planCreateReq p).amount) :
    (planCreateReq p).amount = decimalToString p.amount ∧
    ∃ (p' : Plan) (t : List RemoteCall),
      Plan.push api p = (Except.ok p', t) ∧ p'.amount = p.amount := by
  have hamt : decimalFromString
      (api.planRetrieve (api.planCreate (planCreateReq p)).id).amount = some p.amount := by
    rw [hecho]
    exact decimal_roundtrip p.amount
  refine ⟨rfl, { p with
      openpay_id := (api.planCreate (planCreateReq p)).id
      name := (api.planRetrieve (api.planCreate (planCreateReq p)).id).name
      amount := p.amount
      status_after_retry := (api.planRetrieve (api.planCreate (planCreateReq p)).id).status_after_retry
      retry_times := (api.planRetrieve (api.planCreate (planCreateReq p)).id).retry_times
      repeat_unit := (api.planRetrieve (api.planCreate (planCreateReq p)).id).repeat_unit
      trial_days := (api.planRetrieve (api.planCreate (planCreateReq p)).id).trial_days
      repeat_every := (api.planRetrieve (api.planCreate (planCreateReq p)).id).repeat_every
      creation_date := some (parse_datetime
        (api.planRetrieve (api.planCreate (planCreateReq p)).id).creation_date)
      _openpay := some (api.planRetrieve (api.planCreate (planCreateReq p)).id) },
    [RemoteCall.planCreate (planCreateReq p),
     RemoteCall.planRetrieve (api.planCreate (planCreateReq p)).id],
    ?_, rfl⟩
  simp [Plan.push, h, Plan.pull, Plan.retrieve, hid, hamt, Res.ok]

/-- Witness for C8 at the `199.00` plan fixture against the echoing
oracle. -/
theorem claim_C8_witness :
    plan0.openpay_id = "" ∧ plan0.amount.places ≤ 2 ∧
    (apiDefault.planCreate (planCreateReq plan0)).id ≠ "" ∧
    (apiDefault.planRetrieve (apiDefault.planCreate (planCreateReq plan0)).id).amount =
      (planCreateReq plan0).amount ∧
    ((planCreateReq plan0).amount = decimalToString plan0.amount ∧
      ∃ (p' : Plan) (t : List RemoteCall),
        Plan.push apiDefault plan0 = (Except.ok p', t) ∧ p'.amount = plan0.amount) :=
  ⟨rfl, by decide, by decide, by decide,
   claim_C8_plan_amount_exact apiDefault plan0 rfl (by decide) (by decide) (by decide)⟩

/-- The resulting customer's remote identifier, or the given default when
the operation raised. -/
def Customer.resultOpenpayId (r : Res Customer) (dflt : String) : String :=
  match r.1 with
  | Except.ok c => c.openpay_id
  | Except.error _ => dflt

/-- The resulting card's remote identifier, or the default on error. -/
def Card.resultOpenpayId (r : Res Card) (dflt : String) : String :=
  match r.1 with
  | Except.ok c => c.openpay_id
  | Except.error _ => dflt

/-- The resulting plan's remote identifier, or the default on error. -/
def Plan.resultOpenpayId (r : Res Plan) (dflt : String) : String :=
  match r.1 with
  | Except.ok p => p.openpay_id
  | Except.error _ => dflt

/-- The resulting subscription's remote identifier, or the default on
error. -/
def Subscription.resultOpenpayId (r : Res Subscription) (dflt : String) : String :=
  match r.1 with
  | Except.ok s => s.openpay_id
  | Except.error _ => dflt

/-- The resulting charge's remote identifier, or the default on error. -/
def Charge.resultOpenpayId (r : Res Charge) (dflt : String) : String :=
  match r.1 with
  | Except.ok ch => ch.openpay_id
  | Except.error _ => dflt

@[simp] theorem Res.emit_fst (cs : List RemoteCall) (a : α) :
    (Res.emit cs a).1 = Except.ok a := rfl

@[simp] theorem Res.ok_fst (a : α) : (Res.ok a : Res α).1 = Except.ok a := rfl

@[simp] theorem Res.err_fst (e : OpErr) : (Res.err e : Res α).1 = Except.error e := rfl

@[simp] theorem Res.bind_pair_error (e : OpErr) (t : List RemoteCall) (k : α → Res β) :
    Res.bind (Except.error e, t) k = (Except.error e, t) := rfl

@[simp] theorem Res.bind_pair_ok (a : α) (t : List RemoteCall) (k : α → Res β) :
    Res.bind (Except.ok a, t) k = ((k a).1, t ++ (k a).2) := by
  rcases h : k a with ⟨r, u⟩
  simp [Res.bind, h]

/-- Claim C9: once a record's remote identifier is non-empty, none of the
operations reassigns it — every operation on such a record returns it (when
it returns at all) with the identifier unchanged. -/
theorem claim_C9_identifier_immutable :
    (∀ (api : OpenpayAPI) (x : Customer), x.openpay_id ≠ "" →
      Customer.resultOpenpayId (Customer.push api x) x.openpay_id = x.openpay_id) ∧
    (∀ (api : OpenpayAPI) (x : Customer), x.openpay_id ≠ "" →
      Customer.resultOpenpayId (Customer.pull api x) x.openpay_id = x.openpay_id) ∧
    (∀ (api : OpenpayAPI) (x : Customer), x.openpay_id ≠ "" →
      Customer.resultOpenpayId (Customer.retrieve api x) x.openpay_id = x.openpay_id) ∧
    (∀ (api : OpenpayAPI) (x : Customer), x.openpay_id ≠ "" →
      Customer.resultOpenpayId (Customer.remove api x) x.openpay_id = x.openpay_id) ∧
    (∀ (api : OpenpayAPI) (x : Card), x.openpay_id ≠ "" →
      Card.resultOpenpayId (Card.push api x) x.openpay_id = x.openpay_id) ∧
    (∀ (api : OpenpayAPI) (x : Card), x.openpay_id ≠ "" →
      Card.resultOpenpayId (Card.pull api x) x.openpay_id = x.openpay_id) ∧
    (∀ (api : OpenpayAPI) (x : Card), x.openpay_id ≠ "" →
      Card.resultOpenpayId (Card.retrieve api x) x.openpay_id = x.openpay_id) ∧
    (∀ (api : OpenpayAPI) (x : Card), x.openpay_id ≠ "" →
      Card.resultOpenpayId (Card.remove api x) x.openpay_id = x.openpay_id) ∧
    (∀ (api : OpenpayAPI) (x : Plan), x.openpay_id ≠ "" →
      Plan.resultOpenpayId (Plan.push api x) x.openpay_id = x.openpay_id) ∧
    (∀ (api : OpenpayAPI) (x : Plan), x.openpay_id ≠ "" →
      Plan.resultOpenpayId (Plan.pull api x) x.openpay_id = x.openpay_id) ∧
    (∀ (api : OpenpayAPI) (x : Plan), x.openpay_id ≠ "" →
      Plan.resultOpenpayId (Plan.retrieve api x) x.openpay_id = x.openpay_id) ∧
    (∀ (api : OpenpayAPI) (x : Plan), x.openpay_id ≠ "" →
      Plan.resultOpenpayId (Plan.remove api x) x.openpay_id = x.openpay_id) ∧
    (∀ (api : OpenpayAPI) (x : Subscription), x.openpay_id ≠ "" →
      Subscription.resultOpenpayId (Subscription.push api x) x.openpay_id = x.openpay_id) ∧
    (∀ (api : OpenpayAPI) (x : Subscription), x.openpay_id ≠ "" →
      Subscription.resultOpenpayId (Subscription.pull api x) x.openpay_id = x.openpay_id) ∧
    (∀ (api : OpenpayAPI) (x : Subscription), x.openpay_id ≠ "" →
      Subscription.resultOpenpayId (Subscription.retrieve api x) x.openpay_id = x.openpay_id) ∧
    (∀ (api : OpenpayAPI) (x : Subscription), x.openpay_id ≠ "" →
      Subscription.resultOpenpayId (Subscription.remove api x) x.openpay_id = x.openpay_id) ∧
    (∀ (api : OpenpayAPI) (x : Charge), x.openpay_id ≠ "" →
      Charge.resultOpenpayId (Charge.push api x) x.openpay_id = x.openpay_id) ∧
    (∀ (api : OpenpayAPI) (x : Charge), x.openpay_id ≠ "" →
      Charge.resultOpenpayId (Charge.pull api x) x.openpay_id = x.openpay_id) ∧
    (∀ (api : OpenpayAPI) (x : Charge), x.openpay_id ≠ "" →
      Charge.resultOpenpayId (Charge.retrieve api x) x.openpay_id = x.openpay_id) ∧
    (∀ (api : OpenpayAPI) (x : Charge), x.openpay_id ≠ "" →
      Charge.resultOpenpayId (Charge.remove x) x.openpay_id = x.openpay_id) ∧
    (∀ (api : OpenpayAPI) (x : Charge), x.openpay_id ≠ "" →
      Charge.resultOpenpayId (Charge.capture api x) x.openpay_id = x.openpay_id) ∧
    (∀ (api : OpenpayAPI) (x : Charge), x.openpay_id ≠ "" →
      Charge.resultOpenpayId (Charge.refund api x) x.openpay_id = x.openpay_id) := by
  refine ⟨?_, ?_, ?_, ?_, ?_, ?_, ?_, ?_, ?_, ?_, ?_, ?_, ?_, ?_, ?_, ?_, ?_, ?_, ?_, ?_, ?_, ?_⟩
  · intro api x h
    cases hx : x._openpay <;>
      simp [Customer.push, h, hx, Customer.retrieve, Customer.resultOpenpayId]
  · intro api x h
    simp [Customer.pull, Customer.retrieve, h, Customer.resultOpenpayId]
  · intro api x h
    simp [Customer.retrieve, h, Customer.resultOpenpayId, Res.emit]
  · intro api x h
    cases hx : x._openpay <;>
      simp [Customer.remove, h, hx, Customer.retrieve, Customer.resultOpenpayId]
  · intro api x h
    simp [Card.push, Card.resultOpenpayId, Res.err]
  · intro api x h
    cases hcu : x.customer with
    | none => simp [Card.pull, Card.retrieve, hcu, Card.resultOpenpayId, Res.err]
    | some cust =>
      by_cases hz : cust.openpay_id = "" <;>
        simp [Card.pull, Card.retrieve, hcu, hz, h, Card.resultOpenpayId, Res.err]
  · intro api x h
    cases hcu : x.customer with
    | none => simp [Card.retrieve, hcu, Card.resultOpenpayId, Res.err]
    | some cust =>
      by_cases hz : cust.openpay_id = "" <;>
        simp [Card.retrieve, hcu, hz, h, Card.resultOpenpayId, Res.err, Res.emit]
  · intro api x h
    cases hx : x._openpay with
    | some op => simp [Card.remove, h, hx, Card.resultOpenpayId]
    | none =>
      cases hcu : x.customer with
      | none => simp [Card.remove, h, hx, Card.retrieve, hcu, Card.resultOpenpayId, Res.err]
      | some cust =>
        by_cases hz : cust.openpay_id = "" <;>
          simp [Card.remove, h, hx, Card.retrieve, hcu, hz, Card.resultOpenpayId, Res.err]
  · intro api x h
    cases hx : x._openpay <;>
      simp [Plan.push, h, hx, Plan.retrieve, Plan.resultOpenpayId]
  · intro api x h
    cases hdec : decimalFromString (api.planRetrieve x.openpay_id).amount with
    | none => simp [Plan.pull, Plan.retrieve, h, hdec, Plan.resultOpenpayId, Res.err]
    | some amt => simp [Plan.pull, Plan.retrieve, h, hdec, Plan.resultOpenpayId]
  · intro api x h
    simp [Plan.retrieve, h, Plan.resultOpenpayId, Res.emit]
  · intro api x h
    cases hx : x._openpay <;>
      simp [Plan.remove, h, hx, Plan.retrieve, Plan.resultOpenpayId]
  · intro api x h
    cases hx : x._openpay with
    | some op =>
      cases hted : x.trial_end_date with
      | none => simp [Subscription.push, h, hx, hted, Subscription.resultOpenpayId, Res.err]
      | some ted =>
        cases hcd : x.card with
        | none => simp [Subscription.push, h, hx, hted, hcd, Subscription.resultOpenpayId, Res.err]
        | some card => simp [Subscription.push, h, hx, hted, hcd, Subscription.resultOpenpayId]
    | none =>
      cases hcu : x.customer with
      | none =>
        simp [Subscription.push, h, hx, Subscription.retrieve, hcu,
          Subscription.resultOpenpayId, Res.err]
      | some cust =>
        by_cases hz : cust.openpay_id = ""
        · simp [Subscription.push, h, hx, Subscription.retrieve, hcu, hz,
            Subscription.resultOpenpayId, Res.err]
        · cases hted : x.trial_end_date with
          | none =>
            simp [Subscription.push, h, hx, Subscription.retrieve, hcu, hz, hted,
              Subscription.resultOpenpayId, Res.err]
          | some ted =>
            cases hcd : x.card with
            | none =>
              simp [Subscription.push, h, hx, Subscription.retrieve, hcu, hz, hted, hcd,
                Subscription.resultOpenpayId, Res.err]
            | some card =>
              simp [Subscription.push, h, hx, Subscription.retrieve, hcu, hz, hted, hcd,
                Subscription.resultOpenpayId]
  · intro api x h
    cases hcu : x.customer with
    | none => simp [Subscription.pull, Subscription.retrieve, hcu, Subscription.resultOpenpayId, Res.err]
    | some cust =>
      by_cases hz : cust.openpay_id = "" <;>
        simp [Subscription.pull, Subscription.retrieve, hcu, hz, h,
          Subscription.resultOpenpayId, Res.err]
  · intro api x h
    cases hcu : x.customer with
    | none => simp [Subscription.retrieve, hcu, Subscription.resultOpenpayId, Res.err]
    | some cust =>
      by_cases hz : cust.openpay_id = "" <;>
        simp [Subscription.retrieve, hcu, hz, h, Subscription.resultOpenpayId, Res.err, Res.emit]
  · intro api x h
    cases hx : x._openpay with
    | some op => simp [Subscription.remove, h, hx, Subscription.resultOpenpayId]
    | none =>
      cases hcu : x.customer with
      | none =>
        simp [Subscription.remove, h, hx, Subscription.retrieve, hcu,
          Subscription.resultOpenpayId, Res.err]
      | some cust =>
        by_cases hz : cust.openpay_id = "" <;>
          simp [Subscription.remove, h, hx, Subscription.retrieve, hcu, hz,
            Subscription.resultOpenpayId, Res.err]
  · intro api x h
    simp [Charge.push, h, Charge.resultOpenpayId, Res.ok]
  · intro api x h
    cases hcu : x.customer with
    | none => simp [Charge.pull, Charge.retrieve, hcu, Charge.resultOpenpayId, Res.err]
    | some cust =>
      by_cases hz : cust.openpay_id = ""
      · simp [Charge.pull, Charge.retrieve, hcu, hz, Charge.resultOpenpayId, Res.err]
      · cases hdec : decimalFromString (api.chargeRetrieve cust.openpay_id x.openpay_id).amount with
        | none => simp [Charge.pull, Charge.retrieve, hcu, hz, h, hdec, Charge.resultOpenpayId, Res.err]
        | some amt => simp [Charge.pull, Charge.retrieve, hcu, hz, h, hdec, Charge.resultOpenpayId]
  · intro api x h
    cases hcu : x.customer with
    | none => simp [Charge.retrieve, hcu, Charge.resultOpenpayId, Res.err]
    | some cust =>
      by_cases hz : cust.openpay_id = "" <;>
        simp [Charge.retrieve, hcu, hz, h, Charge.resultOpenpayId, Res.err, Res.emit]
  · intro api x h
    simp [Charge.remove, Charge.resultOpenpayId, Res.err]
  · intro api x h
    by_cases hm : x.method = charge_method_card
    · cases hx : x._openpay with
      | some op => simp [Charge.capture, h, hm, hx, Charge.resultOpenpayId]
      | none =>
        cases hcu : x.customer with
        | none => simp [Charge.capture, h, hm, hx, Charge.retrieve, hcu, Charge.resultOpenpayId, Res.err]
        | some cust =>
          by_cases hz : cust.openpay_id = "" <;>
            simp [Charge.capture, h, hm, hx, Charge.retrieve, hcu, hz, Charge.resultOpenpayId, Res.err]
    · simp [Charge.capture, hm, Charge.resultOpenpayId, Res.err]
  · intro api x h
    by_cases hm : x.method = charge_method_card
    · cases hx : x._openpay with
      | some op => simp [Charge.refund, h, hm, hx, Charge.push, Charge.resultOpenpayId]
      | none =>
        cases hcu : x.customer with
        | none => simp [Charge.refund, h, hm, hx, Charge.retrieve, hcu, Charge.resultOpenpayId, Res.err]
        | some cust =>
          by_cases hz : cust.openpay_id = "" <;>
            simp [Charge.refund, h, hm, hx, Charge.retrieve, hcu, hz, Charge.push,
              Charge.resultOpenpayId, Res.err]
    · simp [Charge.refund, hm, Charge.resultOpenpayId, Res.ok]

/-- Witness for C9: every operation applied to the synchronized fixtures
keeps the remote identifier. -/
theorem claim_C9_witness :
    custSync.openpay_id ≠ "" ∧ cardSync.openpay_id ≠ "" ∧ planSync.openpay_id ≠ "" ∧
    subSync.openpay_id ≠ "" ∧ chargeSync.openpay_id ≠ "" ∧
    Customer.resultOpenpayId (Customer.push apiDefault custSync) custSync.openpay_id = custSync.openpay_id ∧
    Customer.resultOpenpayId (Customer.pull apiDefault custSync) custSync.openpay_id = custSync.openpay_id ∧
    Customer.resultOpenpayId (Customer.retrieve apiDefault custSync) custSync.openpay_id = custSync.openpay_id ∧
    Customer.resultOpenpayId (Customer.remove apiDefault custSync) custSync.openpay_id = custSync.openpay_id ∧
    Card.resultOpenpayId (Card.push apiDefault cardSync) cardSync.openpay_id = cardSync.openpay_id ∧
    Card.resultOpenpayId (Card.pull apiDefault cardSync) cardSync.openpay_id = cardSync.openpay_id ∧
    Card.resultOpenpayId (Card.retrieve apiDefault cardSync) cardSync.openpay_id = cardSync.openpay_id ∧
    Card.resultOpenpayId (Card.remove apiDefault cardSync) cardSync.openpay_id = cardSync.openpay_id ∧
    Plan.resultOpenpayId (Plan.push apiDefault planSync) planSync.openpay_id = planSync.openpay_id ∧
    Plan.resultOpenpayId (Plan.pull apiDefault planSync) planSync.openpay_id = planSync.openpay_id ∧
    Plan.resultOpenpayId (Plan.retrieve apiDefault planSync) planSync.openpay_id = planSync.openpay_id ∧
    Plan.resultOpenpayId (Plan.remove apiDefault planSync) planSync.openpay_id = planSync.openpay_id ∧
    Subscription.resultOpenpayId (Subscription.push apiDefault subSync) subSync.openpay_id = subSync.openpay_id ∧
    Subscription.resultOpenpayId (Subscription.pull apiDefault subSync) subSync.openpay_id = subSync.openpay_id ∧
    Subscription.resultOpenpayId (Subscription.retrieve apiDefault subSync) subSync.openpay_id = subSync.openpay_id ∧
    Subscription.resultOpenpayId (Subscription.remove apiDefault subSync) subSync.openpay_id = subSync.openpay_id ∧
    Charge.resultOpenpayId (Charge.push apiDefault chargeSync) chargeSync.openpay_id = chargeSync.openpay_id ∧
    Charge.resultOpenpayId (Charge.pull apiDefault chargeSync) chargeSync.openpay_id = chargeSync.openpay_id ∧
    Charge.resultOpenpayId (Charge.retrieve apiDefault chargeSync) chargeSync.openpay_id = chargeSync.openpay_id ∧
    Charge.resultOpenpayId (Charge.remove chargeSync) chargeSync.openpay_id = chargeSync.openpay_id ∧
    Charge.resultOpenpayId (Charge.capture apiDefault chargeSync) chargeSync.openpay_id = chargeSync.openpay_id ∧
    Charge.resultOpenpayId (Charge.refund apiDefault chargeSync) chargeSync.openpay_id = chargeSync.openpay_id :=
  ⟨by decide, by decide, by decide, by decide, by decide,
   claim_C9_identifier_immutable.1 apiDefault custSync (by decide),
   claim_C9_identifier_immutable.2.1 apiDefault custSync (by decide),
   claim_C9_identifier_immutable.2.2.1 apiDefault custSync (by decide),
   claim_C9_identifier_immutable.2.2.2.1 apiDefault custSync (by decide),
   claim_C9_identifier_immutable.2.2.2.2.1 apiDefault cardSync (by decide),
   claim_C9_identifier_immutable.2.2.2.2.2.1 apiDefault cardSync (by decide),
   claim_C9_identifier_immutable.2.2.2.2.2.2.1 apiDefault cardSync (by decide),
   claim_C9_identifier_immutable.2.2.2.2.2.2.2.1 apiDefault cardSync (by decide),
   claim_C9_identifier_immutable.2.2.2.2.2.2.2.2.1 apiDefault planSync (by decide),
   claim_C9_identifier_immutable.2.2.2.2.2.2.2.2.2.1 apiDefault planSync (by decide),
   claim_C9_identifier_immutable.2.2.2.2.2.2.2.2.2.2.1 apiDefault planSync (by decide),
   claim_C9_identifier_immutable.2.2.2.2.2.2.2.2.2.2.2.1 apiDefault planSync (by decide),
   claim_C9_identifier_immutable.2.2.2.2.2.2.2.2.2.2.2.2.1 apiDefault subSync (by decide),
   claim_C9_identifier_immutable.2.2.2.2.2.2.2.2.2.2.2.2.2.1 apiDefault subSync (by decide),
   claim_C9_identifier_immutable.2.2.2.2.2.2.2.2.2.2.2.2.2.2.1 apiDefault subSync (by decide),
   claim_C9_identifier_immutable.2.2.2.2.2.2.2.2.2.2.2.2.2.2.2.1 apiDefault subSync (by decide),
   claim_C9_identifier_immutable.2.2.2.2.2.2.2.2.2.2.2.2.2.2.2.2.1 apiDefault chargeSync (by decide),
   claim_C9_identifier_immutable.2.2.2.2.2.2.2.2.2.2.2.2.2.2.2.2.2.1 apiDefault chargeSync (by decide),
   claim_C9_identifier_immutable.2.2.2.2.2.2.2.2.2.2.2.2.2.2.2.2.2.2.1 apiDefault chargeSync (by decide),
   claim_C9_identifier_immutable.2.2.2.2.2.2.2.2.2.2.2.2.2.2.2.2.2.2.2.1 apiDefault chargeSync (by decide),
   claim_C9_identifier_immutable.2.2.2.2.2.2.2.2.2.2.2.2.2.2.2.2.2.2.2.2.1 apiDefault chargeSync (by decide),
   claim_C9_identifier_immutable.2.2.2.2.2.2.2.2.2.2.2.2.2.2.2.2.2.2.2.2.2 apiDefault chargeSync (by decide)⟩
